import Mathlib

/-!
# Session and token lifecycle of the e-commerce backend

A shallow embedding of `backend/controllers/auth.controller.js`.

Each handler `async (req, res) => ...` becomes a pure function from the request, the
clock and the state of the two stores to the response and the new state.  A `try/catch`
becomes a `match` on an `Except` value.

Collaborators that are outside the controller:

* `jsonwebtoken` is modelled symbolically: a token is its payload together with the key it
  was signed with, so two tokens are the same string exactly when payload and key agree
  (HS256 is deterministic, forging without the key is impossible);
* the key-value store (`redis`) is a list of entries with an expiry instant;
* the user collection is a list of documents; the parts of the user schema that the
  controller calls but that live in `models/user.model.js` are a parameter (`UserModel`).

Time is `Date.now()`, in milliseconds; one request runs at one instant.  Both stores are
taken to be reachable: an outage of the key-value store or the database is not modelled,
so the only exceptions are the ones `jsonwebtoken`, `User.create` and `user.save` raise.
-/

namespace AuthController

/-! ## jsonwebtoken -/

/-- The claims of a token.  `userId` is written by `generateTokens` and the refresh
handler, `id` by the password-reset handlers; `iat` and `exp` are in seconds. -/
structure Payload where
  userId : Option String
  id : Option String
  iat : Nat
  exp : Nat
deriving DecidableEq, Repr

/-- A string as a cookie or a registry value carries it: either a well-formed signed
token, or any other string. -/
inductive Token where
  | raw (s : String)
  | jwt (payload : Payload) (key : String)
deriving DecidableEq, Repr

/-- JavaScript truthiness of `process.env.X`: `undefined` and the empty string are falsy. -/
def envTruthy : Option String → Option String
  | some s => if s = "" then none else some s
  | none => none

/-- JavaScript truthiness of a cookie value: `undefined` and the empty string are falsy. -/
def cookieTruthy : Option Token → Option Token
  | some t => if t = Token.raw "" then none else some t
  | none => none

/-- Value of one decimal digit, `none` for any other character. -/
def digitVal (c : Char) : Option Nat :=
  if c.toNat < 48 then none
  else if c.toNat ≤ 57 then some (c.toNat - 48)
  else none

/-- Reads the leading decimal digits of a list of characters; returns the number read so
far and the rest. -/
def readDigits : Nat → List Char → Nat × List Char
  | acc, [] => (acc, [])
  | acc, c :: cs =>
    match digitVal c with
    | some d => readDigits (acc * 10 + d) cs
    | none => (acc, c :: cs)

/-- The time spans `jsonwebtoken` accepts for `expiresIn` (package `ms`), in seconds, for
the forms digits followed by one of `s`, `m`, `h`, `d`. -/
def timespan (s : String) : Option Nat :=
  match s.data with
  | [] => none
  | c :: cs =>
    match digitVal c with
    | none => none
    | some _ =>
      match readDigits 0 (c :: cs) with
      | (n, [u]) =>
        if u = 's' then some n
        else if u = 'm' then some (n * 60)
        else if u = 'h' then some (n * 60 * 60)
        else if u = 'd' then some (n * 24 * 60 * 60)
        else none
      | _ => none

/-- The call `jwt.sign(payload, secret, { expiresIn })`: `iat` is the clock in whole seconds,
`exp` is `iat` plus the span; it throws when the secret is falsy. -/
def jwt.sign (userId id : Option String) (secret : Option String) (expiresIn : String)
    (now : Nat) : Except String Token :=
  match envTruthy secret with
  | none => .error "secretOrPrivateKey must have a value"
  | some k =>
    match timespan expiresIn with
    | none => .error "\"expiresIn\" should be a number of seconds or string representing a timespan"
    | some span =>
      .ok (Token.jwt { userId := userId, id := id,
                       iat := now / 1000, exp := now / 1000 + span } k)

/-- The call `jwt.verify(token, secret)`: it throws on a string that is no token, on a falsy
secret, on a signature made with another key and, last, on a token whose `exp` the clock
(in whole seconds) has reached; otherwise it returns the payload.  The messages are the
ones of the library; for a string that is no token the library has several, of which
`jwt malformed` (a string without two dots) stands for all. -/
def jwt.verify (token : Token) (secret : Option String) (now : Nat) : Except String Payload :=
  match token with
  | .raw _ => .error "jwt malformed"
  | .jwt payload key =>
    match envTruthy secret with
    | none => .error "secret or public key must be provided"
    | some k =>
      if key ≠ k then .error "invalid signature"
      else if now / 1000 ≥ payload.exp then .error "jwt expired"
      else .ok payload

/-! ## The key-value store -/

/-- One entry of the key-value store: the value and the instant (ms) at which it expires. -/
structure Entry where
  value : Token
  expireAt : Nat
deriving DecidableEq, Repr

/-- The key-value store. -/
abbrev Redis := List (String × Entry)

/-- The call `redis.set(key, value, "EX", seconds)`: overwrites the key. -/
def Redis.set (r : Redis) (key : String) (value : Token) (seconds : Nat) (now : Nat) : Redis :=
  (key, { value := value, expireAt := now + seconds * 1000 }) :: r.filter (fun e => e.1 ≠ key)

/-- The call `redis.get(key)`: the value, or `null` when the key is absent or has expired. -/
def Redis.get (r : Redis) (key : String) (now : Nat) : Option Token :=
  match r.lookup key with
  | some e => if now < e.expireAt then some e.value else none
  | none => none

/-- The call `redis.del(key)`: removes the key; an absent key is not an error. -/
def Redis.del (r : Redis) (key : String) : Redis :=
  r.filter (fun e => e.1 ≠ key)

/-- A template literal interpolating a value that may be `undefined`. -/
def interpolate : Option String → String
  | some s => s
  | none => "undefined"

/-! ## The user collection -/

/-- A user document. -/
structure User where
  _id : String
  name : String
  email : String
  password : String
  role : String
deriving DecidableEq, Repr

/-- The user collection. -/
abbrev Users := List User

/-- The query `User.findOne({ email })`. -/
def User.findOne (users : Users) (email : String) : Option User :=
  users.find? (fun u => u.email = email)

/-- The query `User.findById(id)`. -/
def User.findById (users : Users) (id : Option String) : Option User :=
  match id with
  | some i => users.find? (fun u => u._id = i)
  | none => none

/-- The schema operations that the handlers call.  They are defined in
`models/user.model.js`, which is not among the sources, so they are parameters: `create`
stands for `User.create(fields)` (it assigns the id and the role, hashes the password on
write and may throw), `comparePassword` for `user.comparePassword(candidate)`, `save` for
`user.save()` (it writes the document back, hashing a changed password, and may throw). -/
structure UserModel where
  create : Users → (name email password : String) → Except String (User × Users)
  comparePassword : User → String → Bool
  save : Users → User → Except String Users

/-! ## Requests and responses -/

/-- The environment variables the controller reads. -/
structure Env where
  ACCESS_TOKEN_SECRET : Option String
  REFRESH_TOKEN_SECRET : Option String
  JWT_SECRET : Option String
  NODE_ENV : Option String
deriving DecidableEq, Repr

/-- The fields of `req.body` the handlers read. -/
structure ReqBody where
  name : String := ""
  email : String := ""
  password : String := ""
  token : Option Token := none
  newPassword : String := ""
deriving DecidableEq, Repr

/-- The fields of `req.cookies` the handlers read. -/
structure ReqCookies where
  accessToken : Option Token := none
  refreshToken : Option Token := none
deriving DecidableEq, Repr

/-- A request. -/
structure Req where
  body : ReqBody := {}
  cookies : ReqCookies := {}
deriving DecidableEq, Repr

/-- The options of `res.cookie`. -/
structure CookieOptions where
  httpOnly : Bool
  secure : Bool
  sameSite : String
  maxAge : Nat
deriving DecidableEq, Repr

/-- One `Set-Cookie` of a response. -/
structure SetCookie where
  name : String
  value : Token
  options : CookieOptions
deriving DecidableEq, Repr

/-- A value inside a response body. -/
inductive JVal where
  | str (s : String)
  | bool (b : Bool)
  | user (u : User)
deriving DecidableEq, Repr

/-- A response body: a JSON object as its list of fields. -/
abbrev Json := List (String × JVal)

/-- The response object `res`: status (200 unless set), cookies set, cookies cleared, body. -/
structure Res where
  statusCode : Nat := 200
  cookies : List SetCookie := []
  cleared : List String := []
  body : Json := []
deriving DecidableEq, Repr

/-- The call `res.status(code)`. -/
def Res.status (res : Res) (code : Nat) : Res := { res with statusCode := code }

/-- The call `res.json(body)`. -/
def Res.json (res : Res) (body : Json) : Res := { res with body := body }

/-- The call `res.cookie(name, value, options)`. -/
def Res.cookie (res : Res) (name : String) (value : Token) (options : CookieOptions) : Res :=
  { res with cookies := res.cookies ++ [{ name := name, value := value, options := options }] }

/-- The call `res.clearCookie(name)`. -/
def Res.clearCookie (res : Res) (name : String) : Res :=
  { res with cleared := res.cleared ++ [name] }

/-- The state the handlers act on: the user collection and the key-value store. -/
structure State where
  users : Users
  redis : Redis
deriving DecidableEq, Repr

/-! ## The handlers -/

/-- The function `generateTokens`: an access token (15 minutes, access secret) and a refresh
token (7 days, refresh secret) for the user id. -/
def generateTokens (env : Env) (now : Nat) (userId : String) : Except String (Token × Token) :=
  match jwt.sign (some userId) none env.ACCESS_TOKEN_SECRET "15m" now with
  | .error e => .error e
  | .ok accessToken =>
    match jwt.sign (some userId) none env.REFRESH_TOKEN_SECRET "7d" now with
    | .error e => .error e
    | .ok refreshToken => .ok (accessToken, refreshToken)

/-- The function `storeRefreshToken`: writes the token under the key of the user, for 7 days. -/
def storeRefreshToken (redis : Redis) (now : Nat) (userId : String) (refreshToken : Token) :
    Redis :=
  redis.set ("refresh_token:" ++ userId) refreshToken (7 * 24 * 60 * 60) now

/-- The function `setCookies`: the two cookies of a session. -/
def setCookies (env : Env) (res : Res) (accessToken refreshToken : Token) : Res :=
  let res := res.cookie "accessToken" accessToken
    { httpOnly := true
      secure := env.NODE_ENV = some "production"
      sameSite := "strict"
      maxAge := 15 * 60 * 1000 }
  res.cookie "refreshToken" refreshToken
    { httpOnly := true
      secure := env.NODE_ENV = some "production"
      sameSite := "strict"
      maxAge := 7 * 24 * 60 * 60 * 1000 }

/-- The handler `signup`. -/
def signup (m : UserModel) (env : Env) (now : Nat) (req : Req) (s : State) : Res × State :=
  let res : Res := {}
  match User.findOne s.users req.body.email with
  | some _ => ((res.status 400).json [("message", .str "User already exists")], s)
  | none =>
    match m.create s.users req.body.name req.body.email req.body.password with
    | .error e => ((res.status 500).json [("message", .str e)], s)
    | .ok (user, users) =>
      let s := { s with users := users }
      match generateTokens env now user._id with
      | .error e => ((res.status 500).json [("message", .str e)], s)
      | .ok (accessToken, refreshToken) =>
        let s := { s with redis := storeRefreshToken s.redis now user._id refreshToken }
        let res := setCookies env res accessToken refreshToken
        ((res.status 201).json
            [("_id", .str user._id), ("name", .str user.name),
             ("email", .str user.email), ("role", .str user.role)], s)

/-- The handler `login`. -/
def login (m : UserModel) (env : Env) (now : Nat) (req : Req) (s : State) : Res × State :=
  let res : Res := {}
  let invalid : Res × State :=
    ((res.status 400).json [("message", .str "Invalid email or password")], s)
  match User.findOne s.users req.body.email with
  | none => invalid
  | some user =>
    if m.comparePassword user req.body.password then
      match generateTokens env now user._id with
      | .error e => ((res.status 500).json [("message", .str e)], s)
      | .ok (accessToken, refreshToken) =>
        let s := { s with redis := storeRefreshToken s.redis now user._id refreshToken }
        let res := setCookies env res accessToken refreshToken
        (res.json
            [("_id", .str user._id), ("name", .str user.name),
             ("email", .str user.email), ("role", .str user.role)], s)
    else invalid

/-- The handler `logout`. -/
def logout (env : Env) (now : Nat) (req : Req) (s : State) : Res × State :=
  let res : Res := {}
  let done (s : State) : Res × State :=
    (((res.clearCookie "accessToken").clearCookie "refreshToken").json
        [("message", .str "Logged out successfully")], s)
  match cookieTruthy req.cookies.refreshToken with
  | none => done s
  | some refreshToken =>
    match jwt.verify refreshToken env.REFRESH_TOKEN_SECRET now with
    | .error e =>
      ((res.status 500).json [("message", .str "Server error"), ("error", .str e)], s)
    | .ok decoded =>
      done { s with redis := s.redis.del ("refresh_token:" ++ interpolate decoded.userId) }

/-- The handler `refreshToken`. -/
def refreshToken (env : Env) (now : Nat) (req : Req) (s : State) : Res × State :=
  let res : Res := {}
  let serverError (e : String) : Res × State :=
    ((res.status 500).json [("message", .str "Server error"), ("error", .str e)], s)
  match cookieTruthy req.cookies.refreshToken with
  | none => ((res.status 401).json [("message", .str "No refresh token provided")], s)
  | some refreshToken =>
    match jwt.verify refreshToken env.REFRESH_TOKEN_SECRET now with
    | .error e => serverError e
    | .ok decoded =>
      let storedToken := s.redis.get ("refresh_token:" ++ interpolate decoded.userId) now
      if storedToken ≠ some refreshToken then
        ((res.status 401).json [("message", .str "Invalid refresh token")], s)
      else
        match jwt.sign decoded.userId none env.ACCESS_TOKEN_SECRET "15m" now with
        | .error e => serverError e
        | .ok accessToken =>
          let res := res.cookie "accessToken" accessToken
            { httpOnly := true
              secure := env.NODE_ENV = some "production"
              sameSite := "strict"
              maxAge := 15 * 60 * 1000 }
          (res.json [("message", .str "Token refreshed successfully")], s)

/-! ## Observations on a response, and sample data -/

/-- The value of the first cookie of that name a response sets, if any. -/
def Res.cookieValue (res : Res) (name : String) : Option Token :=
  (res.cookies.find? (fun c => c.name = name)).map (fun c => c.value)

/-- The registry key of a user id, as the three handlers build it. -/
def refreshKey (userId : Option String) : String :=
  "refresh_token:" ++ interpolate userId

/-- A request that carries only a `refreshToken` cookie. -/
def withRefreshCookie (t : Token) : Req :=
  { cookies := { refreshToken := some t } }

/-- A sample environment. -/
def demoEnv : Env :=
  { ACCESS_TOKEN_SECRET := some "access-key"
    REFRESH_TOKEN_SECRET := some "refresh-key"
    JWT_SECRET := some "reset-key"
    NODE_ENV := some "production" }

/-- A sample user schema: ids are `u0`, `u1`, ...; a stored password is the candidate
behind the tag `h:`; the role of a new user is `customer`; saving replaces the document of
the same id. -/
def demoModel : UserModel :=
  { create := fun users name email password =>
      let user : User :=
        { _id := "u" ++ toString users.length, name := name, email := email,
          password := "h:" ++ password, role := "customer" }
      .ok (user, users ++ [user])
    comparePassword := fun user candidate => user.password = "h:" ++ candidate
    save := fun users user =>
      .ok (users.map fun u =>
        if u._id = user._id then { user with password := "h:" ++ user.password } else u) }

/-- A sample user, as `demoModel` stores it after `signup` with password `p1`. -/
def alice : User :=
  { _id := "u0", name := "Alice", email := "a@x.com", password := "h:p1", role := "customer" }

/-- A login request of the sample user. -/
def aliceLogin : Req :=
  { body := { email := "a@x.com", password := "p1" } }

/-- The signup request of the sample user. -/
def aliceSignup : Req :=
  { body := { name := "Alice", email := "a@x.com", password := "p1" } }

/-- A sample user schema that validates on save, as a `minlength` validator of a schema
does: `user.save()` throws for a password shorter than 6 characters; otherwise it is
`demoModel`. -/
def strictModel : UserModel :=
  { create := demoModel.create
    comparePassword := demoModel.comparePassword
    save := fun users user =>
      if user.password.data.length < 6 then
        .error "Password must be at least 6 characters long"
      else demoModel.save users user }

/-- An access token of the sample user issued at second `iat`. -/
def aliceAccess (iat : Nat) : Token :=
  .jwt { userId := some "u0", id := none, iat := iat, exp := iat + 900 } "access-key"

/-- A refresh token of the sample user issued at second `iat`. -/
def aliceRefresh (iat : Nat) : Token :=
  .jwt { userId := some "u0", id := none, iat := iat, exp := iat + 604800 } "refresh-key"

/-- The attributes the claim on cookies asks of one `Set-Cookie`. -/
def cookieAsSpecified (env : Env) (c : SetCookie) : Prop :=
  c.options.httpOnly = true
    ∧ c.options.sameSite = "strict"
    ∧ (c.options.secure = true ↔ env.NODE_ENV = some "production")
    ∧ ((c.name = "accessToken" ∧ c.options.maxAge = 900000)
        ∨ (c.name = "refreshToken" ∧ c.options.maxAge = 604800000))


/-! ## The remaining handlers of the controller -/

/-- The call `jwt.verify(token, secret)` on a field of `req.body`, which may be missing. -/
def jwt.verifyField (token : Option Token) (secret : Option String) (now : Nat) :
    Except String Payload :=
  match token with
  | none => .error "jwt must be provided"
  | some t => jwt.verify t secret now

/-- The handler `verifyToken`. -/
def verifyToken (env : Env) (now : Nat) (req : Req) (s : State) : Res × State :=
  let res : Res := {}
  match cookieTruthy req.cookies.accessToken with
  | none => ((res.status 401).json [("message", .str "No access token provided")], s)
  | some token =>
    match jwt.verify token env.ACCESS_TOKEN_SECRET now with
    | .error _ => ((res.status 401).json [("message", .str "Invalid or expired token")], s)
    | .ok decoded =>
      match User.findById s.users decoded.userId with
      | none => ((res.status 401).json [("message", .str "Invalid user")], s)
      | some user =>
        ((res.status 200).json [("message", .str "Token is valid"), ("user", .user user)], s)

/-- An email handed to `sendEmail`: the address, the subject, and the reset link as the
address it starts with and the token it ends with. -/
structure Mail where
  toAddress : String
  subject : String
  linkBase : String
  resetToken : Token
deriving DecidableEq, Repr

/-- The handler `forgotPassword`; next to the response it returns the emails it hands to
`sendEmail`, which it does not wait for. -/
def forgotPassword (env : Env) (now : Nat) (req : Req) (s : State) : Res × List Mail :=
  let res : Res := {}
  match User.findOne s.users req.body.email with
  | none => ((res.status 404).json [("message", .str "Email không tồn tại")], [])
  | some user =>
    match jwt.sign none (some user._id) env.JWT_SECRET "15m" now with
    | .error e => ((res.status 500).json [("message", .str e)], [])
    | .ok resetToken =>
      ((res.status 200).json [("message", .str "Mã xác nhận đã được gửi đến email")],
       [{ toAddress := req.body.email, subject := "Đặt lại mật khẩu",
          linkBase := "http://localhost:3000/reset-password/", resetToken := resetToken }])

/-- The handler `changePassword`; every exception of its `try` block, the one of
`user.save()` included, gets the answer 400. -/
def changePassword (m : UserModel) (env : Env) (now : Nat) (req : Req) (s : State) :
    Res × State :=
  let res : Res := {}
  let invalid : Res × State :=
    ((res.status 400).json [("message", .str "Mã xác nhận không hợp lệ hoặc đã hết hạn")], s)
  match jwt.verifyField req.body.token env.JWT_SECRET now with
  | .error _ => invalid
  | .ok decoded =>
    match User.findById s.users decoded.id with
    | none => ((res.status 404).json [("message", .str "Người dùng không tồn tại")], s)
    | some user =>
      match m.save s.users { user with password := req.body.newPassword } with
      | .error _ => invalid
      | .ok users =>
        ((res.status 200).json [("message", .str "Đặt lại mật khẩu thành công")],
         { s with users := users })

/-- The handler `verifyResetToken`. -/
def verifyResetToken (env : Env) (now : Nat) (req : Req) : Res :=
  let res : Res := {}
  match jwt.verifyField req.body.token env.JWT_SECRET now with
  | .ok _ => (res.status 200).json [("valid", .bool true), ("message", .str "Token is valid")]
  | .error _ =>
    (res.status 400).json
      [("valid", .bool false), ("message", .str "Mã xác nhận không hợp lệ hoặc đã hết hạn")]

/-- A request that carries only an `accessToken` cookie. -/
def withAccessCookie (t : Token) : Req :=
  { cookies := { accessToken := some t } }

/-- A reset token of the sample user issued at second `iat`. -/
def aliceReset (iat : Nat) : Token :=
  .jwt { userId := none, id := some "u0", iat := iat, exp := iat + 900 } "reset-key"

/-- A reset-password request. -/
def resetRequest (t : Token) (newPassword : String) : Req :=
  { body := { token := some t, newPassword := newPassword } }

/-! ## The routers -/

/-- The HTTP methods the routers register. -/
inductive Method where
  | GET | POST | PUT | PATCH | DELETE
deriving DecidableEq, Repr

/-- One segment of a route path: a literal, or a named parameter such as `:id`. -/
inductive Segment where
  | lit (s : String)
  | param (name : String)
deriving DecidableEq, Repr

/-- One function in the chain a route registers: one of the three gates imported from
`middleware/auth.middleware.js`, or a controller, given by its name. -/
inductive Step where
  | protectRoute
  | adminRoute
  | sellerRoute
  | handler (name : String)
deriving DecidableEq, Repr

/-- A registration `router.METHOD(path, f1, ..., fn)`. -/
structure Route where
  method : Method
  path : List Segment
  chain : List Step
deriving DecidableEq, Repr

/-- The router of `routes/auth.route.js`, in registration order. -/
def authRouter : List Route :=
  [ ⟨.POST, [.lit "signup"], [.handler "signup"]⟩,
    ⟨.POST, [.lit "login"], [.handler "login"]⟩,
    ⟨.POST, [.lit "logout"], [.handler "logout"]⟩,
    ⟨.POST, [.lit "refresh-token"], [.handler "refreshToken"]⟩,
    ⟨.GET, [.lit "profile"], [.protectRoute, .handler "getProfile"]⟩,
    ⟨.POST, [.lit "forgot-password"], [.handler "forgotPassword"]⟩,
    ⟨.POST, [.lit "reset-password"], [.handler "changePassword"]⟩,
    ⟨.GET, [.lit "verify-token"], [.handler "verifyToken"]⟩,
    ⟨.POST, [.lit "verify-reset-token"], [.handler "verifyResetToken"]⟩ ]

/-- The router of `routes/product.route.js`, in registration order. -/
def productRouter : List Route :=
  [ ⟨.GET, [], [.protectRoute, .adminRoute, .handler "getAllProducts"]⟩,
    ⟨.GET, [.lit "featured"], [.handler "getFeaturedProducts"]⟩,
    ⟨.GET, [.lit "category", .param "category"], [.handler "getProductsByCategory"]⟩,
    ⟨.GET, [.lit "recommendations"], [.handler "getRecommendedProducts"]⟩,
    ⟨.POST, [], [.protectRoute, .adminRoute, .handler "createProduct"]⟩,
    ⟨.PATCH, [.param "id"], [.protectRoute, .adminRoute, .handler "toggleFeaturedProduct"]⟩,
    ⟨.DELETE, [.param "id"], [.protectRoute, .adminRoute, .handler "deleteProduct"]⟩,
    ⟨.PUT, [.param "id"], [.protectRoute, .adminRoute, .handler "updateProduct"]⟩,
    ⟨.GET, [.lit "search"], [.handler "searchProducts"]⟩,
    ⟨.GET, [.lit "filter"], [.handler "filterProducts"]⟩,
    ⟨.GET, [.param "id"], [.protectRoute, .handler "getProductById"]⟩ ]

/-- The router of `routes/cart.route.js`, in registration order. -/
def cartRouter : List Route :=
  [ ⟨.GET, [], [.protectRoute, .handler "getCartProducts"]⟩,
    ⟨.POST, [], [.protectRoute, .handler "addToCart"]⟩,
    ⟨.DELETE, [.param "id"], [.protectRoute, .handler "removeAllFromCart"]⟩,
    ⟨.PUT, [.param "id"], [.protectRoute, .handler "updateQuantity"]⟩ ]

/-- The router of `routes/coupon.route.js`, in registration order. -/
def couponRouter : List Route :=
  [ ⟨.GET, [], [.protectRoute, .handler "getCoupon"]⟩,
    ⟨.POST, [.lit "validate"], [.protectRoute, .handler "validateCoupon"]⟩ ]

/-- The router of `routes/payment.route.js`, in registration order. -/
def paymentRouter : List Route :=
  [ ⟨.POST, [.lit "create-checkout-session"], [.protectRoute, .handler "createCheckoutSession"]⟩,
    ⟨.POST, [.lit "checkout-success"], [.protectRoute, .handler "checkoutSuccess"]⟩ ]

/-- The router of `routes/analytics.route.js`; its controller is an inline function. -/
def analyticsRouter : List Route :=
  [ ⟨.GET, [], [.protectRoute, .adminRoute, .handler "analytics"]⟩ ]

/-- The router of `routes/order.route.js`, in registration order. -/
def orderRouter : List Route :=
  [ ⟨.GET, [.lit "pending"], [.protectRoute, .sellerRoute, .handler "getPendingOrders"]⟩,
    ⟨.GET, [.param "id"], [.protectRoute, .sellerRoute, .handler "getOrderDetails"]⟩,
    ⟨.PUT, [.param "id", .lit "status"],
      [.protectRoute, .sellerRoute, .handler "updateOrderStatus"]⟩ ]

/-- The router of `routes/users.route.js`, in registration order. -/
def usersRouter : List Route :=
  [ ⟨.GET, [], [.protectRoute, .adminRoute, .handler "getAllUsers"]⟩,
    ⟨.DELETE, [.param "id"], [.protectRoute, .adminRoute, .handler "deleteUser"]⟩,
    ⟨.PUT, [.param "id"], [.protectRoute, .adminRoute, .handler "updateUserByAdmin"]⟩,
    ⟨.PUT, [.lit "profile"], [.protectRoute, .handler "updateUserProfile"]⟩ ]

/-- The mounts `app.use(path, router)` of `server.js`, in order. -/
def app : List (List String × List Route) :=
  [ (["api", "auth"], authRouter),
    (["api", "products"], productRouter),
    (["api", "cart"], cartRouter),
    (["api", "coupons"], couponRouter),
    (["api", "payments"], paymentRouter),
    (["api", "analytics"], analyticsRouter),
    (["api", "order"], orderRouter),
    (["api", "users"], usersRouter) ]

/-- The code of a character with the upper-case Latin letters folded to lower case. -/
def foldCase (c : Char) : Nat :=
  if 65 ≤ c.toNat ∧ c.toNat ≤ 90 then c.toNat + 32 else c.toNat

/-- Whether two strings are equal up to the case of their letters, which is how the router
compares paths (its option `caseSensitive` is off by default). -/
def sameText (a b : String) : Bool :=
  a.data.map foldCase = b.data.map foldCase

/-- Whether a path segment of a request fits a segment of a route: a literal fits itself up
to case, a parameter fits any non-empty segment. -/
def Segment.fits : Segment → String → Bool
  | .lit s, x => sameText s x
  | .param _, x => x ≠ ""

/-- Whether the path of a request, as its segments, fits the path of a route; one trailing
slash, which leaves an empty last segment, is allowed (the option `strict` of the router is
off by default). -/
def pathFits : List Segment → List String → Bool
  | [], [] => true
  | [], [x] => x = ""
  | p :: ps, x :: xs => p.fits x && pathFits ps xs
  | _, _ => false

/-- Whether a route is a candidate for a request. -/
def Route.fits (route : Route) (method : Method) (path : List String) : Bool :=
  route.method = method && pathFits route.path path

/-- The route a router runs for a request: the first registered one that fits. -/
def dispatch (router : List Route) (method : Method) (path : List String) : Option Route :=
  router.find? (fun route => route.fits method path)

/-- The rest of a request path behind a mount path, if it starts with it. -/
def dropMount : List String → List String → Option (List String)
  | [], path => some path
  | m :: ms, x :: xs => if sameText m x then dropMount ms xs else none
  | _ :: _, [] => none

/-- The route the application runs for a request: the first mount whose path the request
starts with and whose router has a route that fits the rest. -/
def appDispatch (method : Method) (path : List String) : Option Route :=
  app.findSome? fun mount =>
    match dropMount mount.1 path with
    | some rest => dispatch mount.2 method rest
    | none => none

/-- What each gate does with a request: `true` when it calls `next()`, `false` when it
answers itself.  The gates are defined in `middleware/auth.middleware.js`, which is not
among the sources, so their verdicts are a parameter. -/
structure Gates where
  protectRoute : Bool
  adminRoute : Bool
  sellerRoute : Bool
deriving DecidableEq, Repr

/-- How the run of a chain ends: a controller answers, a gate answers, or the chain is
exhausted. -/
inductive Outcome where
  | handled (name : String)
  | rejected (gate : Step)
  | exhausted
deriving DecidableEq, Repr

/-- Runs the functions of a chain in order: a gate hands over to the next function or
answers, a controller answers. -/
def runChain (g : Gates) : List Step → Outcome
  | [] => .exhausted
  | .handler name :: _ => .handled name
  | .protectRoute :: rest => if g.protectRoute then runChain g rest else .rejected .protectRoute
  | .adminRoute :: rest => if g.adminRoute then runChain g rest else .rejected .adminRoute
  | .sellerRoute :: rest => if g.sellerRoute then runChain g rest else .rejected .sellerRoute

/-- Whether a controller answered. -/
def Outcome.isHandled : Outcome → Bool
  | .handled _ => true
  | _ => false

/-- Whether a step is a role gate. -/
def Step.isRoleGate : Step → Bool
  | .adminRoute => true
  | .sellerRoute => true
  | _ => false

/-- Whether a step is a gate. -/
def Step.isGate : Step → Bool
  | .handler _ => false
  | _ => true

/-- Whether every role gate of a chain has `protectRoute` somewhere before it; `seen` tells
whether `protectRoute` has occurred so far. -/
def authBeforeRole : Bool → List Step → Bool
  | _, [] => true
  | seen, step :: rest =>
    if step = .protectRoute then authBeforeRole true rest
    else if step.isRoleGate then seen && authBeforeRole seen rest
    else authBeforeRole seen rest

/-- Whether a chain is a run of gates followed by exactly one controller, the last step. -/
def gatesThenHandler : List Step → Bool
  | [] => false
  | [step] => !step.isGate
  | step :: rest => step.isGate && gatesThenHandler rest

/-! ## The role gate -/

/-- The roles of the spec: ordinary user, seller, administrator. -/
inductive Role where
  | ordinaryUser
  | seller
  | administrator
deriving DecidableEq, Repr

/-- What a gate does with a request: it calls `next()`, or it answers with a status. -/
inductive Verdict where
  | next
  | respond (status : Nat)
deriving DecidableEq, Repr

/-- Modelled from the spec: the role gate of `middleware/auth.middleware.js`, which is not
among the sources.  `RequireRole(role)` fails with `Forbidden` (status 403) unless the role
of the attached user equals the required role or is administrator, which satisfies every
lower check; seller and ordinary user are incomparable. -/
def requireRole (required : Role) (attached : Role) : Verdict :=
  if attached = required ∨ attached = Role.administrator then .next else .respond 403

/-- Modelled from the spec: the gate `adminRoute` of `middleware/auth.middleware.js`, which
is not among the sources, is `RequireRole(administrator)`. -/
def adminRoute (attached : Role) : Verdict :=
  requireRole Role.administrator attached

/-- Modelled from the spec: the gate `sellerRoute` of `middleware/auth.middleware.js`, which
is not among the sources, is `RequireRole(seller)`. -/
def sellerRoute (attached : Role) : Verdict :=
  requireRole Role.seller attached

/-- The keys of a JSON object, in order. -/
def Json.keys (body : Json) : List String :=
  body.map fun field => field.1

/-! ## Facts about the collaborators -/

theorem timespan_fifteen_minutes : timespan "15m" = some 900 := by decide

theorem timespan_seven_days : timespan "7d" = some 604800 := by decide

theorem lookup_filter_ne (r : Redis) (key : String) :
    List.lookup key (r.filter (fun e => e.1 ≠ key)) = none := by
  induction r with
  | nil => rfl
  | cons e r ih =>
    obtain ⟨a, b⟩ := e
    by_cases h : a = key
    · rw [List.filter_cons_of_neg (by simpa using h)]
      exact ih
    · rw [List.filter_cons_of_pos (by simpa using h)]
      have hk : (key == a) = false := by
        rw [beq_eq_false_iff_ne]
        exact fun h2 => h h2.symm
      rw [List.lookup_cons, hk]
      exact ih

theorem get_set_same (r : Redis) (key : String) (value : Token) (seconds now t : Nat) :
    Redis.get (Redis.set r key value seconds now) key t
      = if t < now + seconds * 1000 then some value else none := by
  simp [Redis.get, Redis.set, List.lookup_cons]

theorem get_del_same (r : Redis) (key : String) (t : Nat) :
    Redis.get (Redis.del r key) key t = none := by
  unfold Redis.get Redis.del
  rw [lookup_filter_ne]

theorem cookieTruthy_jwt (p : Payload) (k : String) :
    cookieTruthy (some (Token.jwt p k)) = some (Token.jwt p k) := by
  simp [cookieTruthy]

theorem verify_ok_iff {token : Token} {secret : Option String} {now : Nat} {p : Payload} :
    jwt.verify token secret now = .ok p
      ↔ ∃ k, envTruthy secret = some k ∧ token = Token.jwt p k ∧ now / 1000 < p.exp := by
  unfold jwt.verify
  cases token with
  | raw s => simp
  | jwt payload key =>
    cases hs : envTruthy secret with
    | none => simp
    | some k =>
      by_cases hk : key = k
      · by_cases he : payload.exp ≤ now / 1000
        · simp only [hk, he, ne_eq, not_true_eq_false, ite_false, ge_iff_le, ite_true]
          constructor
          · intro h; cases h
          · rintro ⟨k2, -, h2, h3⟩
            cases h2
            omega
        · simp only [hk, he, ne_eq, not_true_eq_false, ite_false, ge_iff_le]
          constructor
          · intro h
            cases h
            exact ⟨k, rfl, rfl, by omega⟩
          · rintro ⟨k2, -, h2, -⟩
            cases h2
            rfl
      · simp only [hk, ne_eq, not_false_eq_true, ite_true]
        constructor
        · intro h; cases h
        · rintro ⟨k2, h1, h2, -⟩
          cases h2
          cases h1
          exact absurd rfl hk

theorem generateTokens_ok {env : Env} {now : Nat} {userId : String} {a r : Token}
    (h : generateTokens env now userId = .ok (a, r)) :
    ∃ ka kr, envTruthy env.ACCESS_TOKEN_SECRET = some ka
      ∧ envTruthy env.REFRESH_TOKEN_SECRET = some kr
      ∧ a = Token.jwt ⟨some userId, none, now / 1000, now / 1000 + 900⟩ ka
      ∧ r = Token.jwt ⟨some userId, none, now / 1000, now / 1000 + 604800⟩ kr := by
  unfold generateTokens jwt.sign at h
  rw [timespan_fifteen_minutes, timespan_seven_days] at h
  cases ha : envTruthy env.ACCESS_TOKEN_SECRET with
  | none => simp [ha] at h
  | some ka =>
    cases hr : envTruthy env.REFRESH_TOKEN_SECRET with
    | none => simp [ha, hr] at h
    | some kr =>
      simp [ha, hr] at h
      exact ⟨ka, kr, rfl, rfl, h.1.symm, h.2.symm⟩


/-! ## Facts about the handlers -/

theorem login_users (m : UserModel) (env : Env) (now : Nat) (req : Req) (s : State) :
    (login m env now req s).2.users = s.users := by
  unfold login
  dsimp only
  split
  · rfl
  · split
    · split <;> rfl
    · rfl

theorem login_of_status_200 {m : UserModel} {env : Env} {now : Nat} {req : Req} {s : State}
    (h : (login m env now req s).1.statusCode = 200) :
    ∃ user a r, User.findOne s.users req.body.email = some user
      ∧ m.comparePassword user req.body.password = true
      ∧ generateTokens env now user._id = .ok (a, r)
      ∧ login m env now req s
          = ((setCookies env {} a r).json
              [("_id", .str user._id), ("name", .str user.name),
               ("email", .str user.email), ("role", .str user.role)],
             { s with redis := storeRefreshToken s.redis now user._id r }) := by
  unfold login at h ⊢
  dsimp only at h ⊢
  cases hu : User.findOne s.users req.body.email with
  | none =>
    rw [hu] at h
    simp [Res.status, Res.json] at h
  | some user =>
    rw [hu] at h
    dsimp only at h ⊢
    cases hp : m.comparePassword user req.body.password with
    | false =>
      rw [hp] at h
      simp [Res.status, Res.json] at h
    | true =>
      rw [hp] at h
      cases hg : generateTokens env now user._id with
      | error e =>
        rw [hg] at h
        simp [Res.status, Res.json] at h
      | ok pair =>
        obtain ⟨a, r⟩ := pair
        exact ⟨user, a, r, rfl, hp, hg, by simp [hp, hg]⟩

theorem refreshToken_verified {env : Env} {now : Nat} {req : Req} {s : State} {tok : Token}
    {p : Payload} (hc : req.cookies.refreshToken = some tok)
    (hv : jwt.verify tok env.REFRESH_TOKEN_SECRET now = .ok p) :
    refreshToken env now req s
      = if s.redis.get (refreshKey p.userId) now = some tok then
          match jwt.sign p.userId none env.ACCESS_TOKEN_SECRET "15m" now with
          | .error e =>
            ({ statusCode := 500,
               body := [("message", .str "Server error"), ("error", .str e)] }, s)
          | .ok accessToken =>
            ({ statusCode := 200,
               cookies := [⟨"accessToken", accessToken,
                 ⟨true, env.NODE_ENV = some "production", "strict", 15 * 60 * 1000⟩⟩],
               body := [("message", .str "Token refreshed successfully")] }, s)
        else
          ({ statusCode := 401, body := [("message", .str "Invalid refresh token")] }, s) := by
  obtain ⟨k, -, ht, -⟩ := verify_ok_iff.mp hv
  subst ht
  unfold refreshToken
  rw [hc, cookieTruthy_jwt]
  simp only [hv, refreshKey]
  by_cases hg : Redis.get s.redis ("refresh_token:" ++ interpolate p.userId) now
      = some (Token.jwt p k)
  · rw [if_pos hg, if_neg (not_not.mpr hg)]
    cases jwt.sign p.userId none env.ACCESS_TOKEN_SECRET "15m" now with
    | error e => rfl
    | ok a => rfl
  · rw [if_neg hg, if_pos hg]
    rfl

theorem refreshToken_state (env : Env) (now : Nat) (req : Req) (s : State) :
    (refreshToken env now req s).2 = s := by
  unfold refreshToken
  dsimp only
  split
  · rfl
  · split
    · rfl
    · split
      · rfl
      · split <;> rfl

theorem refreshToken_unverified {env : Env} {now : Nat} {req : Req} {s : State}
    (h : ∀ tok p, req.cookies.refreshToken = some tok →
      jwt.verify tok env.REFRESH_TOKEN_SECRET now ≠ .ok p) :
    (refreshToken env now req s).1.statusCode ≠ 200
      ∧ (refreshToken env now req s).1.cookies = [] := by
  unfold refreshToken
  cases hc : req.cookies.refreshToken with
  | none => simp [cookieTruthy, Res.status, Res.json]
  | some tok =>
    unfold cookieTruthy
    by_cases he : tok = Token.raw ""
    · simp [he, Res.status, Res.json]
    · simp only [he, if_false]
      cases hv : jwt.verify tok env.REFRESH_TOKEN_SECRET now with
      | error e => simp [Res.status, Res.json]
      | ok p => exact absurd hv (h tok p hc)


theorem setCookies_refresh_value (env : Env) (a r : Token) (body : Json) :
    ((setCookies env {} a r).json body).cookieValue "refreshToken" = some r := by
  simp [setCookies, Res.cookie, Res.json, Res.cookieValue, List.find?]

theorem setCookies_access_value (env : Env) (a r : Token) (body : Json) :
    ((setCookies env {} a r).json body).cookieValue "accessToken" = some a := by
  simp [setCookies, Res.cookie, Res.json, Res.cookieValue, List.find?]

theorem refreshToken_other_stored {env : Env} {now : Nat} {req : Req} {s : State}
    {tok : Token}
    (hc : req.cookies.refreshToken = some tok)
    (hs : ∀ p, jwt.verify tok env.REFRESH_TOKEN_SECRET now = .ok p →
      s.redis.get (refreshKey p.userId) now ≠ some tok) :
    (refreshToken env now req s).1.statusCode ≠ 200
      ∧ (refreshToken env now req s).1.cookies = []
      ∧ ((∃ p, jwt.verify tok env.REFRESH_TOKEN_SECRET now = .ok p) →
          (refreshToken env now req s).1
            = { statusCode := 401, body := [("message", .str "Invalid refresh token")] }) := by
  cases hv : jwt.verify tok env.REFRESH_TOKEN_SECRET now with
  | error e =>
    have h := @refreshToken_unverified env now req s
      (fun t p ht => by
        rw [hc] at ht
        cases ht
        rw [hv]
        exact fun h => by cases h)
    exact ⟨h.1, h.2, fun ⟨p, hp⟩ => by cases hp⟩
  | ok p =>
    rw [refreshToken_verified hc hv, if_neg (hs p hv)]
    exact ⟨by simp, rfl, fun _ => rfl⟩

/-- Claim C1, as the code has it: after two successful logins of the same user made in
different clock seconds, a refresh request presenting the refresh token of the first login
is never accepted (no 200, no cookie set, the registry untouched), and while that token
still verifies the answer is 401 with the message `Invalid refresh token`. -/
theorem stale_refresh_token_rejected (m : UserModel) (env : Env) (s : State)
    (req1 req2 req3 : Req) (now1 now2 now3 : Nat) (user : User) (tok1 : Token)
    (hu1 : User.findOne s.users req1.body.email = some user)
    (h1 : (login m env now1 req1 s).1.statusCode = 200)
    (ht1 : (login m env now1 req1 s).1.cookieValue "refreshToken" = some tok1)
    (hu2 : User.findOne (login m env now1 req1 s).2.users req2.body.email = some user)
    (h2 : (login m env now2 req2 (login m env now1 req1 s).2).1.statusCode = 200)
    (hne : now1 / 1000 ≠ now2 / 1000)
    (hc : req3.cookies.refreshToken = some tok1) :
    (refreshToken env now3 req3 (login m env now2 req2 (login m env now1 req1 s).2).2).1.statusCode
        ≠ 200
      ∧ (refreshToken env now3 req3
          (login m env now2 req2 (login m env now1 req1 s).2).2).1.cookies = []
      ∧ (refreshToken env now3 req3 (login m env now2 req2 (login m env now1 req1 s).2).2).2
          = (login m env now2 req2 (login m env now1 req1 s).2).2
      ∧ ((∃ p, jwt.verify tok1 env.REFRESH_TOKEN_SECRET now3 = .ok p) →
          (refreshToken env now3 req3 (login m env now2 req2 (login m env now1 req1 s).2).2).1
            = { statusCode := 401, body := [("message", .str "Invalid refresh token")] }) := by
  obtain ⟨u1, a1, r1, hf1, -, hg1, e1⟩ := login_of_status_200 h1
  rw [hu1] at hf1
  cases hf1
  obtain ⟨u2, a2, r2, hf2, -, hg2, e2⟩ := login_of_status_200 h2
  rw [hu2] at hf2
  cases hf2
  rw [e1, setCookies_refresh_value] at ht1
  cases ht1
  obtain ⟨-, kr, -, hkr, -, hr1⟩ := generateTokens_ok hg1
  obtain ⟨-, kr2, -, hkr2, -, hr2⟩ := generateTokens_ok hg2
  rw [hkr] at hkr2
  cases hkr2
  have hstored : ∀ p, jwt.verify tok1 env.REFRESH_TOKEN_SECRET now3 = .ok p →
      (login m env now2 req2 (login m env now1 req1 s).2).2.redis.get (refreshKey p.userId) now3
        ≠ some tok1 := by
    intro p hp
    obtain ⟨k, -, hk, -⟩ := verify_ok_iff.mp hp
    rw [hr1] at hk
    cases hk
    rw [e2]
    simp only [storeRefreshToken, refreshKey, interpolate, get_set_same]
    rw [hr1, hr2]
    split
    · intro h
      simp only [Option.some.injEq, Token.jwt.injEq, Payload.mk.injEq] at h
      exact hne h.1.2.2.1.symm
    · exact fun h => by cases h
  have h := refreshToken_other_stored hc hstored
  exact ⟨h.1, h.2.1, refreshToken_state _ _ _ _, h.2.2⟩

/-- Claim C1 fails as stated: two logins of the sample user within one clock second (at
5000 ms and at 5900 ms) issue the same refresh token, so a refresh request presenting the
token of the first login after the second login is answered 200 with a new access token. -/
theorem same_second_logins_share_refresh_token :
    (login demoModel demoEnv 5000 aliceLogin ⟨[alice], []⟩).1.statusCode = 200
      ∧ (login demoModel demoEnv 5000 aliceLogin ⟨[alice], []⟩).1.cookieValue "refreshToken"
          = some (aliceRefresh 5)
      ∧ (login demoModel demoEnv 5900 aliceLogin
          (login demoModel demoEnv 5000 aliceLogin ⟨[alice], []⟩).2).1.statusCode = 200
      ∧ (refreshToken demoEnv 6000 (withRefreshCookie (aliceRefresh 5))
          (login demoModel demoEnv 5900 aliceLogin
            (login demoModel demoEnv 5000 aliceLogin ⟨[alice], []⟩).2).2).1
          = { statusCode := 200
              cookies := [⟨"accessToken", aliceAccess 6, ⟨true, true, "strict", 900000⟩⟩]
              body := [("message", .str "Token refreshed successfully")] } := by
  decide

theorem stale_refresh_token_rejected_witness :
    (refreshToken demoEnv 7000 (withRefreshCookie (aliceRefresh 5))
        (login demoModel demoEnv 6000 aliceLogin
          (login demoModel demoEnv 5000 aliceLogin ⟨[alice], []⟩).2).2).1
      = { statusCode := 401, body := [("message", .str "Invalid refresh token")] } :=
  (stale_refresh_token_rejected demoModel demoEnv ⟨[alice], []⟩ aliceLogin aliceLogin
    (withRefreshCookie (aliceRefresh 5)) 5000 6000 7000 alice (aliceRefresh 5)
    (by decide) (by decide) (by decide) (by decide) (by decide) (by decide) (by decide)).2.2.2
    ⟨⟨some "u0", none, 5, 604805⟩, rfl⟩


theorem signup_of_status_201 {m : UserModel} {env : Env} {now : Nat} {req : Req} {s : State}
    (h : (signup m env now req s).1.statusCode = 201) :
    ∃ user users a r, User.findOne s.users req.body.email = none
      ∧ m.create s.users req.body.name req.body.email req.body.password = .ok (user, users)
      ∧ generateTokens env now user._id = .ok (a, r)
      ∧ signup m env now req s
          = (((setCookies env {} a r).status 201).json
              [("_id", .str user._id), ("name", .str user.name),
               ("email", .str user.email), ("role", .str user.role)],
             { users := users, redis := storeRefreshToken s.redis now user._id r }) := by
  unfold signup at h ⊢
  dsimp only at h ⊢
  cases hu : User.findOne s.users req.body.email with
  | some u =>
    rw [hu] at h
    simp [Res.status, Res.json] at h
  | none =>
    rw [hu] at h
    dsimp only at h ⊢
    cases hc : m.create s.users req.body.name req.body.email req.body.password with
    | error e =>
      rw [hc] at h
      simp [Res.status, Res.json] at h
    | ok pair =>
      obtain ⟨user, users⟩ := pair
      rw [hc] at h
      dsimp only at h ⊢
      cases hg : generateTokens env now user._id with
      | error e =>
        rw [hg] at h
        simp [Res.status, Res.json] at h
      | ok toks =>
        obtain ⟨a, r⟩ := toks
        exact ⟨user, users, a, r, rfl, rfl, hg, by simp [hg]⟩

theorem status_json_refresh_value (env : Env) (a r : Token) (code : Nat) (body : Json) :
    (((setCookies env {} a r).status code).json body).cookieValue "refreshToken" = some r := by
  simp [setCookies, Res.cookie, Res.json, Res.status, Res.cookieValue, List.find?]

theorem status_json_access_value (env : Env) (a r : Token) (code : Nat) (body : Json) :
    (((setCookies env {} a r).status code).json body).cookieValue "accessToken" = some a := by
  simp [setCookies, Res.cookie, Res.json, Res.status, Res.cookieValue, List.find?]

theorem logout_verified {env : Env} {now : Nat} {req : Req} {s : State} {tok : Token}
    {p : Payload} (hc : req.cookies.refreshToken = some tok)
    (hv : jwt.verify tok env.REFRESH_TOKEN_SECRET now = .ok p) :
    logout env now req s
      = ({ statusCode := 200, cleared := ["accessToken", "refreshToken"],
           body := [("message", .str "Logged out successfully")] },
         { s with redis := s.redis.del (refreshKey p.userId) }) := by
  obtain ⟨k, -, ht, -⟩ := verify_ok_iff.mp hv
  subst ht
  unfold logout
  rw [hc, cookieTruthy_jwt]
  simp only [hv]
  rfl

theorem refresh_after_logout {env : Env} {s : State} {reqOut reqIn : Req} {now1 now2 : Nat}
    {tok : Token} {p1 p2 : Payload}
    (hc1 : reqOut.cookies.refreshToken = some tok)
    (hv1 : jwt.verify tok env.REFRESH_TOKEN_SECRET now1 = .ok p1)
    (hc2 : reqIn.cookies.refreshToken = some tok)
    (hv2 : jwt.verify tok env.REFRESH_TOKEN_SECRET now2 = .ok p2) :
    refreshToken env now2 reqIn (logout env now1 reqOut s).2
      = ({ statusCode := 401, body := [("message", .str "Invalid refresh token")] },
         (logout env now1 reqOut s).2) := by
  have hp : p1 = p2 := by
    obtain ⟨k1, -, h1, -⟩ := verify_ok_iff.mp hv1
    obtain ⟨k2, -, h2, -⟩ := verify_ok_iff.mp hv2
    rw [h1] at h2
    cases h2
    rfl
  subst hp
  rw [refreshToken_verified hc2 hv2, logout_verified hc1 hv1]
  simp only [get_del_same]
  rfl

/-- Claim C2: after a logout that carried a refresh token which verified, a refresh request
presenting that token while it still verifies gets 401 `Invalid refresh token`, sets no
cookie and changes nothing; in particular so does the run signup of `a@x.com` with
password `p1` answered 201, logout with the refresh cookie of that answer, refresh with the
same cookie, both within the 604800 seconds of the token. -/
theorem refresh_after_logout_rejected :
    (∀ (env : Env) (s : State) (reqOut reqIn : Req) (now1 now2 : Nat) (tok : Token)
        (p1 p2 : Payload),
        reqOut.cookies.refreshToken = some tok →
        jwt.verify tok env.REFRESH_TOKEN_SECRET now1 = .ok p1 →
        reqIn.cookies.refreshToken = some tok →
        jwt.verify tok env.REFRESH_TOKEN_SECRET now2 = .ok p2 →
        (logout env now1 reqOut s).1.statusCode = 200
          ∧ refreshToken env now2 reqIn (logout env now1 reqOut s).2
              = ({ statusCode := 401, body := [("message", .str "Invalid refresh token")] },
                 (logout env now1 reqOut s).2))
      ∧ (∀ (m : UserModel) (env : Env) (s : State) (reqUp reqOut reqIn : Req)
          (now0 now1 now2 : Nat),
          reqUp.body.email = "a@x.com" → reqUp.body.password = "p1" →
          (signup m env now0 reqUp s).1.statusCode = 201 →
          reqOut.cookies.refreshToken = (signup m env now0 reqUp s).1.cookieValue "refreshToken" →
          reqIn.cookies.refreshToken = (signup m env now0 reqUp s).1.cookieValue "refreshToken" →
          now1 / 1000 < now0 / 1000 + 604800 → now2 / 1000 < now0 / 1000 + 604800 →
          (signup m env now0 reqUp s).1.cookies.length = 2
            ∧ (logout env now1 reqOut (signup m env now0 reqUp s).2).1.statusCode = 200
            ∧ (refreshToken env now2 reqIn
                (logout env now1 reqOut (signup m env now0 reqUp s).2).2).1
                = { statusCode := 401, body := [("message", .str "Invalid refresh token")] }) := by
  constructor
  · intro env s reqOut reqIn now1 now2 tok p1 p2 hc1 hv1 hc2 hv2
    refine ⟨?_, refresh_after_logout hc1 hv1 hc2 hv2⟩
    rw [logout_verified hc1 hv1]
  · intro m env s reqUp reqOut reqIn now0 now1 now2 _ _ h201 hc1 hc2 hn1 hn2
    obtain ⟨user, users, a, r, -, -, hg, e⟩ := signup_of_status_201 h201
    obtain ⟨-, kr, -, hkr, -, hr⟩ := generateTokens_ok hg
    rw [e, status_json_refresh_value] at hc1 hc2
    have hv : ∀ t, t / 1000 < now0 / 1000 + 604800 →
        jwt.verify r env.REFRESH_TOKEN_SECRET t
          = .ok ⟨some user._id, none, now0 / 1000, now0 / 1000 + 604800⟩ := by
      intro t ht
      rw [verify_ok_iff]
      exact ⟨kr, hkr, hr, ht⟩
    refine ⟨?_, ?_, ?_⟩
    · rw [e]
      simp [setCookies, Res.cookie, Res.json, Res.status]
    · rw [logout_verified hc1 (hv now1 hn1)]
    · rw [refresh_after_logout hc1 (hv now1 hn1) hc2 (hv now2 hn2)]

theorem refresh_after_logout_rejected_witness :
    (refreshToken demoEnv 9000 (withRefreshCookie (aliceRefresh 5))
        (logout demoEnv 8000 (withRefreshCookie (aliceRefresh 5))
          (signup demoModel demoEnv 5000
            { body := { name := "Alice", email := "a@x.com", password := "p1" } } ⟨[], []⟩).2).2).1
      = { statusCode := 401, body := [("message", .str "Invalid refresh token")] } :=
  (refresh_after_logout_rejected.2 demoModel demoEnv ⟨[], []⟩
    { body := { name := "Alice", email := "a@x.com", password := "p1" } }
    (withRefreshCookie (aliceRefresh 5)) (withRefreshCookie (aliceRefresh 5)) 5000 8000 9000
    (by decide) (by decide) (by decide) (by decide) (by decide) (by decide) (by decide)).2.2


theorem sign_access_ok {env : Env} {ka : String} (hA : envTruthy env.ACCESS_TOKEN_SECRET = some ka)
    (userId : Option String) (now : Nat) :
    jwt.sign userId none env.ACCESS_TOKEN_SECRET "15m" now
      = .ok (Token.jwt ⟨userId, none, now / 1000, now / 1000 + 900⟩ ka) := by
  unfold jwt.sign
  rw [hA, timespan_fifteen_minutes]

theorem refreshToken_accepted {env : Env} {now : Nat} {req : Req} {s : State} {tok : Token}
    {p : Payload} {ka : String} (hA : envTruthy env.ACCESS_TOKEN_SECRET = some ka)
    (hc : req.cookies.refreshToken = some tok)
    (hv : jwt.verify tok env.REFRESH_TOKEN_SECRET now = .ok p)
    (hs : s.redis.get (refreshKey p.userId) now = some tok) :
    refreshToken env now req s
      = ({ statusCode := 200,
           cookies := [⟨"accessToken", Token.jwt ⟨p.userId, none, now / 1000, now / 1000 + 900⟩ ka,
             ⟨true, env.NODE_ENV = some "production", "strict", 15 * 60 * 1000⟩⟩],
           body := [("message", .str "Token refreshed successfully")] }, s) := by
  rw [refreshToken_verified hc hv, if_pos hs, sign_access_ok hA]

theorem refreshToken_of_status_200 {env : Env} {now : Nat} {req : Req} {s : State}
    (h : (refreshToken env now req s).1.statusCode = 200) :
    ∃ tok p, req.cookies.refreshToken = some tok
      ∧ jwt.verify tok env.REFRESH_TOKEN_SECRET now = .ok p
      ∧ s.redis.get (refreshKey p.userId) now = some tok := by
  by_contra hno
  have hno2 : ∀ tok p, req.cookies.refreshToken = some tok →
      jwt.verify tok env.REFRESH_TOKEN_SECRET now = .ok p →
      s.redis.get (refreshKey p.userId) now ≠ some tok :=
    fun tok p hc hv hs => hno ⟨tok, p, hc, hv, hs⟩
  cases hc : req.cookies.refreshToken with
  | none =>
    exact (@refreshToken_unverified env now req s
      (fun t p ht => by rw [hc] at ht; cases ht)).1 h
  | some tok =>
    exact (refreshToken_other_stored (s := s) hc (fun p hv => hno2 tok p hc hv)).1 h

/-- Claim C3, for a deployment whose access secret is set: the refresh handler answers 200
`Token refreshed successfully` with an `accessToken` cookie exactly when the `refreshToken`
cookie is present, verifies under the refresh secret at that instant and equals the registry
value of the user id it encodes; the access token then issued verifies under the access
secret, for the 900 seconds that follow, to that same user id. -/
theorem refreshToken_succeeds_iff (env : Env) (now : Nat) (req : Req) (s : State) (ka : String)
    (hA : envTruthy env.ACCESS_TOKEN_SECRET = some ka) :
    (((refreshToken env now req s).1.statusCode = 200
        ∧ (refreshToken env now req s).1.body = [("message", .str "Token refreshed successfully")]
        ∧ ((refreshToken env now req s).1.cookieValue "accessToken").isSome = true)
      ↔ ∃ tok p, req.cookies.refreshToken = some tok
          ∧ jwt.verify tok env.REFRESH_TOKEN_SECRET now = .ok p
          ∧ s.redis.get (refreshKey p.userId) now = some tok)
    ∧ ((refreshToken env now req s).1.statusCode = 200 →
        ∃ tok p a, req.cookies.refreshToken = some tok
          ∧ jwt.verify tok env.REFRESH_TOKEN_SECRET now = .ok p
          ∧ (refreshToken env now req s).1.cookieValue "accessToken" = some a
          ∧ ∀ t, t / 1000 < now / 1000 + 900 →
              ∃ pa, jwt.verify a env.ACCESS_TOKEN_SECRET t = .ok pa ∧ pa.userId = p.userId) := by
  refine ⟨⟨fun h => refreshToken_of_status_200 h.1, ?_⟩, ?_⟩
  · rintro ⟨tok, p, hc, hv, hs⟩
    rw [refreshToken_accepted hA hc hv hs]
    exact ⟨rfl, rfl, by simp [Res.cookieValue, List.find?]⟩
  · intro h
    obtain ⟨tok, p, hc, hv, hs⟩ := refreshToken_of_status_200 h
    refine ⟨tok, p, Token.jwt ⟨p.userId, none, now / 1000, now / 1000 + 900⟩ ka,
      hc, hv, ?_, ?_⟩
    · rw [refreshToken_accepted hA hc hv hs]
      simp [Res.cookieValue, List.find?]
    · intro t ht
      exact ⟨_, verify_ok_iff.mpr ⟨ka, hA, rfl, ht⟩, rfl⟩

theorem refreshToken_succeeds_iff_witness :
    (refreshToken demoEnv 7000 (withRefreshCookie (aliceRefresh 5))
        ⟨[alice], [("refresh_token:u0", ⟨aliceRefresh 5, 604805000⟩)]⟩).1.statusCode = 200
      ∧ (refreshToken demoEnv 7000 (withRefreshCookie (aliceRefresh 5))
          ⟨[alice], [("refresh_token:u0", ⟨aliceRefresh 5, 604805000⟩)]⟩).1.cookieValue
            "accessToken" = some (aliceAccess 7) :=
  have h := (refreshToken_succeeds_iff demoEnv 7000 (withRefreshCookie (aliceRefresh 5))
    ⟨[alice], [("refresh_token:u0", ⟨aliceRefresh 5, 604805000⟩)]⟩ "access-key" (by decide)).1.mpr
    ⟨aliceRefresh 5, ⟨some "u0", none, 5, 604805⟩, rfl, rfl, by decide⟩
  ⟨h.1, by decide⟩


/-- Claim C4 at failing inputs: a refresh request whose cookie is no token, one whose token
was signed with another key and one whose token has expired are each answered with status
500 `Server error`, not with 401. -/
theorem refreshToken_bad_token_answers_500 :
    refreshToken demoEnv 7000 (withRefreshCookie (Token.raw "garbage")) ⟨[alice], []⟩
        = ({ statusCode := 500,
             body := [("message", .str "Server error"), ("error", .str "jwt malformed")] },
           ⟨[alice], []⟩)
      ∧ refreshToken demoEnv 7000
          (withRefreshCookie (Token.jwt ⟨some "u0", none, 5, 604805⟩ "guessed-key"))
          ⟨[alice], [("refresh_token:u0", ⟨aliceRefresh 5, 604805000⟩)]⟩
        = ({ statusCode := 500,
             body := [("message", .str "Server error"), ("error", .str "invalid signature")] },
           ⟨[alice], [("refresh_token:u0", ⟨aliceRefresh 5, 604805000⟩)]⟩)
      ∧ refreshToken demoEnv 604805000 (withRefreshCookie (aliceRefresh 5))
          ⟨[alice], [("refresh_token:u0", ⟨aliceRefresh 5, 604805000⟩)]⟩
        = ({ statusCode := 500,
             body := [("message", .str "Server error"), ("error", .str "jwt expired")] },
           ⟨[alice], [("refresh_token:u0", ⟨aliceRefresh 5, 604805000⟩)]⟩) := by
  decide

theorem refreshToken_cookies (env : Env) (now : Nat) (req : Req) (s : State) :
    (refreshToken env now req s).1.cleared = []
      ∧ ∀ c ∈ (refreshToken env now req s).1.cookies,
          c.name = "accessToken" ∧ (refreshToken env now req s).1.statusCode = 200 := by
  unfold refreshToken
  dsimp only
  split
  · simp [Res.status, Res.json]
  · split
    · simp [Res.status, Res.json]
    · split
      · simp [Res.status, Res.json]
      · split
        · simp [Res.status, Res.json]
        · simp [Res.status, Res.json, Res.cookie]

/-- Claim C5: the refresh handler leaves the state of the stores as it found it, sets no
`refreshToken` cookie and clears none, sets a cookie only on success and then only
`accessToken`; presenting the same request again at once gives the same answer, and after a
success it succeeds again at any instant at which the token is unexpired and the registry
still returns the entry. -/
theorem refreshToken_never_rotates (env : Env) (now : Nat) (req : Req) (s : State) :
    (refreshToken env now req s).2 = s
      ∧ (refreshToken env now req s).1.cookieValue "refreshToken" = none
      ∧ (refreshToken env now req s).1.cleared = []
      ∧ (∀ c ∈ (refreshToken env now req s).1.cookies,
          c.name = "accessToken" ∧ (refreshToken env now req s).1.statusCode = 200)
      ∧ refreshToken env now req (refreshToken env now req s).2 = refreshToken env now req s
      ∧ ∀ t, (refreshToken env now req s).1.statusCode = 200 →
          (∀ tok p, req.cookies.refreshToken = some tok →
            jwt.verify tok env.REFRESH_TOKEN_SECRET now = .ok p →
            t / 1000 < p.exp
              ∧ s.redis.get (refreshKey p.userId) t = s.redis.get (refreshKey p.userId) now) →
          (refreshToken env t req (refreshToken env now req s).2).1.statusCode = 200 := by
  have hc := refreshToken_cookies env now req s
  refine ⟨refreshToken_state env now req s, ?_, hc.1, hc.2, ?_, ?_⟩
  · unfold Res.cookieValue
    rw [Option.map_eq_none', List.find?_eq_none]
    intro c hmem
    rw [(hc.2 c hmem).1]
    decide
  · rw [refreshToken_state]
  · intro t h200 hlive
    rw [refreshToken_state]
    obtain ⟨tok, p, hck, hv, hs⟩ := refreshToken_of_status_200 h200
    obtain ⟨hexp, hget⟩ := hlive tok p hck hv
    obtain ⟨k, hk, htok, -⟩ := verify_ok_iff.mp hv
    have hvt : jwt.verify tok env.REFRESH_TOKEN_SECRET t = .ok p :=
      verify_ok_iff.mpr ⟨k, hk, htok, hexp⟩
    rw [refreshToken_verified hck hv, if_pos hs] at h200
    rw [refreshToken_verified hck hvt, if_pos (hget.trans hs)]
    unfold jwt.sign at h200 ⊢
    cases ha : envTruthy env.ACCESS_TOKEN_SECRET with
    | none =>
      rw [ha] at h200
      simp at h200
    | some ka =>
      rw [timespan_fifteen_minutes]

theorem refreshToken_never_rotates_witness :
    (refreshToken demoEnv 8000 (withRefreshCookie (aliceRefresh 5))
        (refreshToken demoEnv 7000 (withRefreshCookie (aliceRefresh 5))
          ⟨[alice], [("refresh_token:u0", ⟨aliceRefresh 5, 604805000⟩)]⟩).2).1.statusCode = 200 :=
  (refreshToken_never_rotates demoEnv 7000 (withRefreshCookie (aliceRefresh 5))
    ⟨[alice], [("refresh_token:u0", ⟨aliceRefresh 5, 604805000⟩)]⟩).2.2.2.2.2 8000 (by decide)
    (fun tok p hc hv => by
      cases hc
      cases hv
      exact ⟨by decide, by decide⟩)

/-- Claim C6 at failing inputs: a logout request whose `refreshToken` cookie is no token,
and one whose token has expired, are each answered with status 500 `Server error`; no cookie
is cleared and the registry entry stays. -/
theorem logout_bad_cookie_answers_500 :
    logout demoEnv 7000 (withRefreshCookie (Token.raw "garbage"))
        ⟨[alice], [("refresh_token:u0", ⟨aliceRefresh 5, 604805000⟩)]⟩
        = ({ statusCode := 500, cleared := [],
             body := [("message", .str "Server error"), ("error", .str "jwt malformed")] },
           ⟨[alice], [("refresh_token:u0", ⟨aliceRefresh 5, 604805000⟩)]⟩)
      ∧ logout demoEnv 604805000 (withRefreshCookie (aliceRefresh 5))
          ⟨[alice], [("refresh_token:u0", ⟨aliceRefresh 6, 604806000⟩)]⟩
        = ({ statusCode := 500, cleared := [],
             body := [("message", .str "Server error"), ("error", .str "jwt expired")] },
           ⟨[alice], [("refresh_token:u0", ⟨aliceRefresh 6, 604806000⟩)]⟩) := by
  decide

/-- Claim C7: a signup request whose email some stored user already has is answered 400
`User already exists`; the answer sets no cookie and both stores are left as they were. -/
theorem signup_existing_email (m : UserModel) (env : Env) (now : Nat) (req : Req) (s : State)
    (h : ∃ u ∈ s.users, u.email = req.body.email) :
    signup m env now req s
      = ({ statusCode := 400, cookies := [], cleared := [],
           body := [("message", .str "User already exists")] }, s) := by
  obtain ⟨u, hu, he⟩ := h
  have hsome : (User.findOne s.users req.body.email).isSome = true := by
    unfold User.findOne
    rw [List.find?_isSome]
    exact ⟨u, hu, by simpa using he⟩
  unfold signup
  cases hf : User.findOne s.users req.body.email with
  | none =>
    rw [hf] at hsome
    cases hsome
  | some v => rfl

theorem signup_existing_email_witness :
    signup demoModel demoEnv 5000
        { body := { name := "Mallory", email := "a@x.com", password := "p2" } } ⟨[alice], []⟩
      = ({ statusCode := 400, cookies := [], cleared := [],
           body := [("message", .str "User already exists")] }, ⟨[alice], []⟩) :=
  signup_existing_email demoModel demoEnv 5000
    { body := { name := "Mallory", email := "a@x.com", password := "p2" } } ⟨[alice], []⟩
    ⟨alice, by decide, by decide⟩


theorem issued_pair_works {env : Env} {now : Nat} {userId : String} {a r : Token}
    (hg : generateTokens env now userId = .ok (a, r)) (users : Users) (redis : Redis) :
    (storeRefreshToken redis now userId r).get (refreshKey (some userId)) now = some r
      ∧ (∀ t reqR, reqR.cookies.refreshToken = some r → t / 1000 < now / 1000 + 604800 →
          (refreshToken env t reqR ⟨users, storeRefreshToken redis now userId r⟩).1.statusCode
            = 200)
      ∧ ∀ t, t / 1000 < now / 1000 + 900 →
          ∃ pa, jwt.verify a env.ACCESS_TOKEN_SECRET t = .ok pa ∧ pa.userId = some userId := by
  obtain ⟨ka, kr, hka, hkr, ha, hr⟩ := generateTokens_ok hg
  have hget : ∀ t, t / 1000 < now / 1000 + 604800 →
      (storeRefreshToken redis now userId r).get (refreshKey (some userId)) t = some r := by
    intro t ht
    simp only [storeRefreshToken, refreshKey, interpolate, get_set_same]
    rw [if_pos]
    omega
  refine ⟨hget now (by omega), ?_, ?_⟩
  · intro t reqR hc ht
    have hv : jwt.verify r env.REFRESH_TOKEN_SECRET t
        = .ok ⟨some userId, none, now / 1000, now / 1000 + 604800⟩ :=
      verify_ok_iff.mpr ⟨kr, hkr, hr, ht⟩
    rw [refreshToken_accepted hka hc hv (hget t ht)]
  · intro t ht
    exact ⟨_, verify_ok_iff.mpr ⟨ka, hka, ha, ht⟩, rfl⟩

/-- Claim C8: a signup answered 201 and a login answered 200 persist the token pair they
issue: the registry entry of the user (the one created, respectively the one found by
email) equals the `refreshToken` cookie of the answer, a refresh request presenting that
cookie within 604800 seconds succeeds, and the `accessToken` cookie verifies under the
access secret to the id of that user within 900 seconds. -/
theorem token_pair_persisted (m : UserModel) (env : Env) (now : Nat) (req : Req) (s : State) :
    ((signup m env now req s).1.statusCode = 201 →
      ∃ user users a r,
        m.create s.users req.body.name req.body.email req.body.password = .ok (user, users)
        ∧ (signup m env now req s).1.cookieValue "accessToken" = some a
        ∧ (signup m env now req s).1.cookieValue "refreshToken" = some r
        ∧ (signup m env now req s).2.redis.get (refreshKey (some user._id)) now = some r
        ∧ (∀ t reqR, reqR.cookies.refreshToken = some r → t / 1000 < now / 1000 + 604800 →
            (refreshToken env t reqR (signup m env now req s).2).1.statusCode = 200)
        ∧ ∀ t, t / 1000 < now / 1000 + 900 →
            ∃ pa, jwt.verify a env.ACCESS_TOKEN_SECRET t = .ok pa ∧ pa.userId = some user._id)
    ∧ ((login m env now req s).1.statusCode = 200 →
      ∃ user a r,
        User.findOne s.users req.body.email = some user
        ∧ (login m env now req s).1.cookieValue "accessToken" = some a
        ∧ (login m env now req s).1.cookieValue "refreshToken" = some r
        ∧ (login m env now req s).2.redis.get (refreshKey (some user._id)) now = some r
        ∧ (∀ t reqR, reqR.cookies.refreshToken = some r → t / 1000 < now / 1000 + 604800 →
            (refreshToken env t reqR (login m env now req s).2).1.statusCode = 200)
        ∧ ∀ t, t / 1000 < now / 1000 + 900 →
            ∃ pa, jwt.verify a env.ACCESS_TOKEN_SECRET t = .ok pa
              ∧ pa.userId = some user._id) := by
  constructor
  · intro h
    obtain ⟨user, users, a, r, -, hc, hg, e⟩ := signup_of_status_201 h
    obtain ⟨h1, h2, h3⟩ := issued_pair_works hg users s.redis
    rw [e]
    exact ⟨user, users, a, r, hc, status_json_access_value _ _ _ _ _,
      status_json_refresh_value _ _ _ _ _, h1, h2, h3⟩
  · intro h
    obtain ⟨user, a, r, hf, -, hg, e⟩ := login_of_status_200 h
    obtain ⟨h1, h2, h3⟩ := issued_pair_works hg s.users s.redis
    rw [e]
    exact ⟨user, a, r, hf, setCookies_access_value _ _ _ _,
      setCookies_refresh_value _ _ _ _, h1, h2, h3⟩

theorem token_pair_persisted_witness :
    (refreshToken demoEnv 5000 (withRefreshCookie (aliceRefresh 5))
        (signup demoModel demoEnv 5000
          { body := { name := "Alice", email := "a@x.com", password := "p1" } }
          ⟨[], []⟩).2).1.statusCode = 200
      ∧ (refreshToken demoEnv 9000 (withRefreshCookie (aliceRefresh 5))
          (login demoModel demoEnv 5000 aliceLogin ⟨[alice], []⟩).2).1.statusCode = 200 :=
  have hs := (token_pair_persisted demoModel demoEnv 5000
    { body := { name := "Alice", email := "a@x.com", password := "p1" } } ⟨[], []⟩).1
    (by decide)
  have hl := (token_pair_persisted demoModel demoEnv 5000 aliceLogin ⟨[alice], []⟩).2
    (by decide)
  ⟨by
    obtain ⟨user, users, a, r, -, -, hr, -, h, -⟩ := hs
    cases hr
    exact h 5000 _ rfl (by decide),
   by
    obtain ⟨user, a, r, -, -, hr, -, h, -⟩ := hl
    cases hr
    exact h 9000 _ rfl (by decide)⟩

/-- Claim C9: a login that fails because no user has the email and a login that fails
because the password does not match get the same answer, status 400 with the message
`Invalid email or password`, and neither changes the stores. -/
theorem login_failures_same_answer (m : UserModel) (env : Env) (now1 now2 : Nat)
    (req1 req2 : Req) (s1 s2 : State) (u : User)
    (h1 : User.findOne s1.users req1.body.email = none)
    (h2 : User.findOne s2.users req2.body.email = some u)
    (h3 : m.comparePassword u req2.body.password = false) :
    (login m env now1 req1 s1).1 = (login m env now2 req2 s2).1
      ∧ (login m env now1 req1 s1).1
          = { statusCode := 400, cookies := [], cleared := [],
              body := [("message", .str "Invalid email or password")] }
      ∧ (login m env now1 req1 s1).2 = s1
      ∧ (login m env now2 req2 s2).2 = s2 := by
  have e1 : login m env now1 req1 s1
      = ({ statusCode := 400, body := [("message", .str "Invalid email or password")] }, s1) := by
    unfold login
    rw [h1]
    rfl
  have e2 : login m env now2 req2 s2
      = ({ statusCode := 400, body := [("message", .str "Invalid email or password")] }, s2) := by
    unfold login
    rw [h2]
    simp only [h3]
    rfl
  rw [e1, e2]
  exact ⟨rfl, rfl, rfl, rfl⟩

theorem login_failures_same_answer_witness :
    (login demoModel demoEnv 5000 { body := { email := "nobody@x.com", password := "p1" } }
        ⟨[alice], []⟩).1
      = (login demoModel demoEnv 6000 { body := { email := "a@x.com", password := "wrong" } }
        ⟨[alice], []⟩).1 :=
  (login_failures_same_answer demoModel demoEnv 5000 6000
    { body := { email := "nobody@x.com", password := "p1" } }
    { body := { email := "a@x.com", password := "wrong" } }
    ⟨[alice], []⟩ ⟨[alice], []⟩ alice (by decide) (by decide) (by decide)).1


theorem setCookies_attributes (env : Env) (a r : Token) :
    ∀ c ∈ (setCookies env {} a r).cookies, cookieAsSpecified env c := by
  intro c hc
  simp only [setCookies, Res.cookie, List.nil_append, List.cons_append, List.mem_cons,
    List.mem_singleton, List.not_mem_nil, or_false] at hc
  rcases hc with rfl | rfl
  · exact ⟨rfl, rfl, by simp, Or.inl ⟨rfl, rfl⟩⟩
  · exact ⟨rfl, rfl, by simp, Or.inr ⟨rfl, rfl⟩⟩

theorem cookie_attributes_of_mem (m : UserModel) (env : Env) (now : Nat) (req : Req) (s : State)
    (c : SetCookie)
    (h : c ∈ (signup m env now req s).1.cookies ∨ c ∈ (login m env now req s).1.cookies
      ∨ c ∈ (refreshToken env now req s).1.cookies) :
    c.options.httpOnly = true
      ∧ c.options.sameSite = "strict"
      ∧ (c.options.secure = true ↔ env.NODE_ENV = some "production")
      ∧ ((c.name = "accessToken" ∧ c.options.maxAge = 900000)
          ∨ (c.name = "refreshToken" ∧ c.options.maxAge = 604800000))
      ∧ (c ∈ (refreshToken env now req s).1.cookies → c.name = "accessToken") := by
  refine ⟨?_, ?_, ?_, ?_, fun hc => ((refreshToken_cookies env now req s).2 c hc).1⟩
  all_goals
    rcases h with h | h | h
    · unfold signup at h
      dsimp only at h
      split at h
      · simp [Res.status, Res.json] at h
      · split at h
        · simp [Res.status, Res.json] at h
        · split at h
          · simp [Res.status, Res.json] at h
          · simp only [Res.status, Res.json] at h
            first
              | exact (setCookies_attributes env _ _ c h).1
              | exact (setCookies_attributes env _ _ c h).2.1
              | exact (setCookies_attributes env _ _ c h).2.2.1
              | exact (setCookies_attributes env _ _ c h).2.2.2
    · unfold login at h
      dsimp only at h
      split at h
      · simp [Res.status, Res.json] at h
      · split at h
        · split at h
          · simp [Res.status, Res.json] at h
          · simp only [Res.status, Res.json] at h
            first
              | exact (setCookies_attributes env _ _ c h).1
              | exact (setCookies_attributes env _ _ c h).2.1
              | exact (setCookies_attributes env _ _ c h).2.2.1
              | exact (setCookies_attributes env _ _ c h).2.2.2
        · simp [Res.status, Res.json] at h
    · unfold refreshToken at h
      dsimp only at h
      split at h
      · simp [Res.status, Res.json] at h
      · split at h
        · simp [Res.status, Res.json] at h
        · split at h
          · simp [Res.status, Res.json] at h
          · split at h
            · simp [Res.status, Res.json] at h
            · simp only [Res.status, Res.json, Res.cookie, List.nil_append,
                List.mem_singleton] at h
              subst h
              simp

/-- Claim C10: a signup answered 201 and a login answered 200 set exactly two cookies,
`accessToken` with `maxAge` 900000 ms and `refreshToken` with `maxAge` 604800000 ms, and a
refresh answered 200 sets exactly one, `accessToken` with `maxAge` 900000 ms; each of them,
like every cookie any of the three handlers sets, is HTTP-only, same-site `strict`, and
secure exactly when `NODE_ENV` is `production`. -/
theorem cookies_as_specified (m : UserModel) (env : Env) (now : Nat) (req : Req) (s : State) :
    (∀ c, (c ∈ (signup m env now req s).1.cookies ∨ c ∈ (login m env now req s).1.cookies
          ∨ c ∈ (refreshToken env now req s).1.cookies) →
        c.options.httpOnly = true
          ∧ c.options.sameSite = "strict"
          ∧ (c.options.secure = true ↔ env.NODE_ENV = some "production")
          ∧ ((c.name = "accessToken" ∧ c.options.maxAge = 900000)
              ∨ (c.name = "refreshToken" ∧ c.options.maxAge = 604800000))
          ∧ (c ∈ (refreshToken env now req s).1.cookies → c.name = "accessToken"))
      ∧ ((signup m env now req s).1.statusCode = 201 →
          ∃ a r, (signup m env now req s).1.cookies
            = [⟨"accessToken", a, ⟨true, env.NODE_ENV = some "production", "strict", 900000⟩⟩,
               ⟨"refreshToken", r,
                 ⟨true, env.NODE_ENV = some "production", "strict", 604800000⟩⟩])
      ∧ ((login m env now req s).1.statusCode = 200 →
          ∃ a r, (login m env now req s).1.cookies
            = [⟨"accessToken", a, ⟨true, env.NODE_ENV = some "production", "strict", 900000⟩⟩,
               ⟨"refreshToken", r,
                 ⟨true, env.NODE_ENV = some "production", "strict", 604800000⟩⟩])
      ∧ ((refreshToken env now req s).1.statusCode = 200 →
          ∃ a, (refreshToken env now req s).1.cookies
            = [⟨"accessToken", a,
                 ⟨true, env.NODE_ENV = some "production", "strict", 900000⟩⟩]) := by
  refine ⟨fun c h => cookie_attributes_of_mem m env now req s c h, ?_, ?_, ?_⟩
  · intro h
    obtain ⟨user, users, a, r, -, -, -, e⟩ := signup_of_status_201 h
    rw [e]
    exact ⟨a, r, rfl⟩
  · intro h
    obtain ⟨user, a, r, -, -, -, e⟩ := login_of_status_200 h
    rw [e]
    exact ⟨a, r, rfl⟩
  · intro h
    obtain ⟨tok, p, hc, hv, hs⟩ := refreshToken_of_status_200 h
    rw [refreshToken_verified hc hv, if_pos hs] at h ⊢
    cases hsign : jwt.sign p.userId none env.ACCESS_TOKEN_SECRET "15m" now with
    | error e =>
      rw [hsign] at h
      cases h
    | ok a => exact ⟨a, rfl⟩

theorem cookies_as_specified_witness :
    (∃ a r, (signup demoModel demoEnv 5000 aliceSignup ⟨[], []⟩).1.cookies
        = [⟨"accessToken", a, ⟨true, demoEnv.NODE_ENV = some "production", "strict", 900000⟩⟩,
           ⟨"refreshToken", r,
             ⟨true, demoEnv.NODE_ENV = some "production", "strict", 604800000⟩⟩])
      ∧ (∃ a r, (login demoModel demoEnv 5000 aliceLogin ⟨[alice], []⟩).1.cookies
        = [⟨"accessToken", a, ⟨true, demoEnv.NODE_ENV = some "production", "strict", 900000⟩⟩,
           ⟨"refreshToken", r,
             ⟨true, demoEnv.NODE_ENV = some "production", "strict", 604800000⟩⟩])
      ∧ (∃ a, (refreshToken demoEnv 7000 (withRefreshCookie (aliceRefresh 5))
          ⟨[alice], [("refresh_token:u0", ⟨aliceRefresh 5, 604805000⟩)]⟩).1.cookies
        = [⟨"accessToken", a,
             ⟨true, demoEnv.NODE_ENV = some "production", "strict", 900000⟩⟩])
      ∧ (⟨"refreshToken", aliceRefresh 5, ⟨true, true, "strict", 604800000⟩⟩ : SetCookie)
          ∈ (login demoModel demoEnv 5000 aliceLogin ⟨[alice], []⟩).1.cookies
      ∧ (true = true ↔ demoEnv.NODE_ENV = some "production") :=
  ⟨(cookies_as_specified demoModel demoEnv 5000 aliceSignup ⟨[], []⟩).2.1 (by decide),
   (cookies_as_specified demoModel demoEnv 5000 aliceLogin ⟨[alice], []⟩).2.2.1 (by decide),
   (cookies_as_specified demoModel demoEnv 7000 (withRefreshCookie (aliceRefresh 5))
     ⟨[alice], [("refresh_token:u0", ⟨aliceRefresh 5, 604805000⟩)]⟩).2.2.2 (by decide),
   by decide,
   ((cookies_as_specified demoModel demoEnv 5000 aliceLogin ⟨[alice], []⟩).1
    ⟨"refreshToken", aliceRefresh 5, ⟨true, true, "strict", 604800000⟩⟩
    (Or.inr (Or.inl (by decide)))).2.2.1⟩

theorem refreshToken_cookie_mem {env : Env} {now : Nat} {req : Req} {s : State} {c : SetCookie}
    (h : c ∈ (refreshToken env now req s).1.cookies) :
    ∃ (p : Payload) (ka : String), envTruthy env.ACCESS_TOKEN_SECRET = some ka
      ∧ c = ⟨"accessToken", Token.jwt ⟨p.userId, none, now / 1000, now / 1000 + 900⟩ ka,
          ⟨true, env.NODE_ENV = some "production", "strict", 15 * 60 * 1000⟩⟩ := by
  have h200 := ((refreshToken_cookies env now req s).2 c h).2
  obtain ⟨tok, p, hc, hv, hs⟩ := refreshToken_of_status_200 h200
  rw [refreshToken_verified hc hv, if_pos hs] at h h200
  unfold jwt.sign at h h200
  rw [timespan_fifteen_minutes] at h h200
  cases ha : envTruthy env.ACCESS_TOKEN_SECRET with
  | none =>
    rw [ha] at h200
    simp at h200
  | some ka =>
    rw [ha] at h
    simp only [List.mem_singleton] at h
    exact ⟨p, ka, rfl, h⟩

/-- Claim C11: the lifetimes agree.  For a pair issued by `generateTokens`, the refresh
token carries `exp = iat + 604800`, the registry returns the stored token exactly during the
604800 seconds (in ms) after the write, and `setCookies` sets the `refreshToken` cookie with
`maxAge` 604800 seconds in ms; the access token carries `exp = iat + 900` and `setCookies`
sets the `accessToken` cookie with `maxAge` 900 seconds in ms; and a refresh answered 200
sets one `accessToken` cookie with `maxAge` 900 seconds in ms whose token carries
`exp = iat + 900`. -/
theorem lifetimes_agree (env : Env) (now : Nat) (userId : String) (a r : Token)
    (hg : generateTokens env now userId = .ok (a, r)) :
    timespan "7d" = some (7 * 24 * 60 * 60) ∧ 7 * 24 * 60 * 60 = 604800
      ∧ timespan "15m" = some (15 * 60) ∧ 15 * 60 = 900
      ∧ (∃ p k, r = Token.jwt p k ∧ p.exp = p.iat + 604800)
      ∧ (∀ (redis : Redis) (t : Nat),
          (storeRefreshToken redis now userId r).get (refreshKey (some userId)) t = some r
            ↔ t < now + 604800 * 1000)
      ∧ (∀ c ∈ (setCookies env {} a r).cookies,
          c.name = "refreshToken" → c.options.maxAge = 604800 * 1000)
      ∧ (∃ p k, a = Token.jwt p k ∧ p.exp = p.iat + 900)
      ∧ (∀ c ∈ (setCookies env {} a r).cookies,
          c.name = "accessToken" → c.options.maxAge = 900 * 1000)
      ∧ (∀ (t : Nat) (req : Req) (s : State), ∀ c ∈ (refreshToken env t req s).1.cookies,
          c.options.maxAge = 900 * 1000
            ∧ ∃ p k, c.value = Token.jwt p k ∧ p.exp = p.iat + 900)
      ∧ (setCookies env {} a r).cookies
          = [⟨"accessToken", a,
               ⟨true, env.NODE_ENV = some "production", "strict", 900 * 1000⟩⟩,
             ⟨"refreshToken", r,
               ⟨true, env.NODE_ENV = some "production", "strict", 604800 * 1000⟩⟩]
      ∧ (∀ (t : Nat) (req : Req) (s : State),
          (refreshToken env t req s).1.statusCode = 200 →
          ∃ p k, (refreshToken env t req s).1.cookies
              = [⟨"accessToken", Token.jwt p k,
                   ⟨true, env.NODE_ENV = some "production", "strict", 900 * 1000⟩⟩]
            ∧ p.exp = p.iat + 900) := by
  obtain ⟨ka, kr, hka, -, ha, hr⟩ := generateTokens_ok hg
  refine ⟨by decide, by decide, by decide, by decide, ⟨_, _, hr, rfl⟩, ?_, ?_, ⟨_, _, ha, rfl⟩,
    ?_, ?_, rfl, ?_⟩
  · intro redis t
    simp only [storeRefreshToken, refreshKey, interpolate, get_set_same]
    constructor
    · intro h
      by_contra hlt
      rw [if_neg (by omega)] at h
      cases h
    · intro h
      rw [if_pos (by omega)]
  · intro c hc hn
    rcases setCookies_attributes env a r c hc with ⟨-, -, -, h | h⟩
    · rw [h.1] at hn
      exact absurd hn (by decide)
    · exact h.2
  · intro c hc hn
    rcases setCookies_attributes env a r c hc with ⟨-, -, -, h | h⟩
    · exact h.2
    · rw [h.1] at hn
      exact absurd hn (by decide)
  · intro t req s c hc
    obtain ⟨p, k, -, rfl⟩ := refreshToken_cookie_mem hc
    exact ⟨rfl, _, _, rfl, rfl⟩
  · intro t req s h200
    obtain ⟨tok, p, hc, hv, hs⟩ := refreshToken_of_status_200 h200
    rw [refreshToken_accepted hka hc hv hs]
    exact ⟨_, _, rfl, rfl⟩

theorem lifetimes_agree_witness :
    ((storeRefreshToken [] 5000 "u0" (aliceRefresh 5)).get (refreshKey (some "u0")) 604804999
        = some (aliceRefresh 5)
      ∧ 604804999 < 5000 + 604800 * 1000)
      ∧ (setCookies demoEnv {} (aliceAccess 5) (aliceRefresh 5)).cookies
          = [⟨"accessToken", aliceAccess 5,
               ⟨true, demoEnv.NODE_ENV = some "production", "strict", 900 * 1000⟩⟩,
             ⟨"refreshToken", aliceRefresh 5,
               ⟨true, demoEnv.NODE_ENV = some "production", "strict", 604800 * 1000⟩⟩]
      ∧ (∃ p k, (refreshToken demoEnv 7000 (withRefreshCookie (aliceRefresh 5))
            ⟨[alice], [("refresh_token:u0", ⟨aliceRefresh 5, 604805000⟩)]⟩).1.cookies
          = [⟨"accessToken", Token.jwt p k,
               ⟨true, demoEnv.NODE_ENV = some "production", "strict", 900 * 1000⟩⟩]
        ∧ p.exp = p.iat + 900) :=
  have h := lifetimes_agree demoEnv 5000 "u0" (aliceAccess 5) (aliceRefresh 5) rfl
  ⟨⟨(h.2.2.2.2.2.1 [] 604804999).mpr (by decide), by decide⟩,
   h.2.2.2.2.2.2.2.2.2.2.1,
   h.2.2.2.2.2.2.2.2.2.2.2 7000 (withRefreshCookie (aliceRefresh 5))
     ⟨[alice], [("refresh_token:u0", ⟨aliceRefresh 5, 604805000⟩)]⟩ (by decide)⟩


theorem verifyToken_state (env : Env) (now : Nat) (req : Req) (s : State) :
    (verifyToken env now req s).2 = s := by
  unfold verifyToken
  dsimp only
  split
  · rfl
  · split
    · rfl
    · split <;> rfl

theorem verifyToken_accepted {env : Env} {now : Nat} {req : Req} {s : State} {tok : Token}
    {p : Payload} {u : User} (hc : req.cookies.accessToken = some tok)
    (hv : jwt.verify tok env.ACCESS_TOKEN_SECRET now = .ok p)
    (hu : User.findById s.users p.userId = some u) :
    verifyToken env now req s
      = ({ statusCode := 200,
           body := [("message", .str "Token is valid"), ("user", .user u)] }, s) := by
  obtain ⟨k, -, ht, -⟩ := verify_ok_iff.mp hv
  subst ht
  unfold verifyToken
  rw [hc, cookieTruthy_jwt]
  simp only [hv, hu]
  rfl

theorem verifyToken_rejected {env : Env} {now : Nat} {req : Req} {s : State}
    (h : ∀ tok p u, req.cookies.accessToken = some tok →
      jwt.verify tok env.ACCESS_TOKEN_SECRET now = .ok p →
      User.findById s.users p.userId ≠ some u) :
    (verifyToken env now req s).1.statusCode = 401
      ∧ (verifyToken env now req s).1.cookies = [] := by
  unfold verifyToken
  cases hc : req.cookies.accessToken with
  | none => simp [cookieTruthy, Res.status, Res.json]
  | some tok =>
    unfold cookieTruthy
    by_cases he : tok = Token.raw ""
    · simp [he, Res.status, Res.json]
    · simp only [he, if_false]
      cases hv : jwt.verify tok env.ACCESS_TOKEN_SECRET now with
      | error e => simp [Res.status, Res.json]
      | ok p =>
        cases hu : User.findById s.users p.userId with
        | none => simp [hu, Res.status, Res.json]
        | some u => exact absurd hu (h tok p u hc hv)

theorem verify_other_key {tok : Token} {p : Payload} {k : String} {secret : Option String}
    {now : Nat} {q : Payload} (ht : tok = Token.jwt p k) (hs : envTruthy secret ≠ some k) :
    jwt.verify tok secret now ≠ .ok q := by
  intro h
  obtain ⟨k2, hk2, h2, -⟩ := verify_ok_iff.mp h
  rw [ht] at h2
  cases h2
  exact hs hk2

theorem envTruthy_ne {a b : Option String} {ka kb : String} (ha : envTruthy a = some ka)
    (hb : envTruthy b = some kb) (hne : a ≠ b) : ka ≠ kb := by
  intro h
  subst h
  apply hne
  unfold envTruthy at ha hb
  cases a with
  | none => cases ha
  | some x =>
    cases b with
    | none => cases hb
    | some y =>
      by_cases hx : x = ""
      · simp [hx] at ha
      · by_cases hy : y = ""
        · simp [hy] at hb
        · simp [hx] at ha
          simp [hy] at hb
          rw [ha, hb]

/-- Claim C12: when `ACCESS_TOKEN_SECRET` and `REFRESH_TOKEN_SECRET` differ, the access
token of a pair issued by `generateTokens` is never accepted by the refresh handler (no 200,
no cookie set), and the refresh token of the pair is never accepted by `verifyToken`, which
answers 401. -/
theorem token_classes_separated (env : Env) (now : Nat) (userId : String) (a r : Token)
    (hg : generateTokens env now userId = .ok (a, r))
    (hne : env.ACCESS_TOKEN_SECRET ≠ env.REFRESH_TOKEN_SECRET) :
    (∀ (t : Nat) (req : Req) (s : State), req.cookies.refreshToken = some a →
        (refreshToken env t req s).1.statusCode ≠ 200
          ∧ (refreshToken env t req s).1.cookies = [])
      ∧ (∀ (t : Nat) (req : Req) (s : State), req.cookies.accessToken = some r →
          (verifyToken env t req s).1.statusCode = 401) := by
  obtain ⟨ka, kr, hka, hkr, ha, hr⟩ := generateTokens_ok hg
  have hk : ka ≠ kr := envTruthy_ne hka hkr hne
  constructor
  · intro t req s hc
    apply refreshToken_unverified
    intro tok p htok
    rw [hc] at htok
    cases htok
    exact verify_other_key ha (by rw [hkr]; exact fun h => hk (Option.some.inj h).symm)
  · intro t req s hc
    apply (verifyToken_rejected _).1
    intro tok p u htok hv
    rw [hc] at htok
    cases htok
    exact absurd hv (verify_other_key hr (by rw [hka]; exact fun h => hk (Option.some.inj h)))

theorem token_classes_separated_witness :
    (refreshToken demoEnv 6000
        { cookies := { refreshToken := some (aliceAccess 5) } }
        ⟨[alice], [("refresh_token:u0", ⟨aliceRefresh 5, 604805000⟩)]⟩).1.statusCode ≠ 200
      ∧ (verifyToken demoEnv 6000 (withAccessCookie (aliceRefresh 5))
          ⟨[alice], []⟩).1.statusCode = 401 :=
  have h := token_classes_separated demoEnv 5000 "u0" (aliceAccess 5) (aliceRefresh 5) rfl
    (by decide)
  ⟨(h.1 6000 _ _ rfl).1, h.2 6000 _ _ rfl⟩

/-- Claim C13: `verifyToken` answers 200 with the message `Token is valid` and the user
exactly when the `accessToken` cookie is present, verifies under the access secret at that
instant and carries the id of a stored user; in every other case the status is 401. -/
theorem verifyToken_ok_iff (env : Env) (now : Nat) (req : Req) (s : State) :
    (∀ u, (verifyToken env now req s).1
          = { statusCode := 200,
              body := [("message", .str "Token is valid"), ("user", .user u)] }
        ↔ ∃ tok p, req.cookies.accessToken = some tok
            ∧ jwt.verify tok env.ACCESS_TOKEN_SECRET now = .ok p
            ∧ User.findById s.users p.userId = some u)
      ∧ ((verifyToken env now req s).1.statusCode = 200
        ↔ ∃ tok p u, req.cookies.accessToken = some tok
            ∧ jwt.verify tok env.ACCESS_TOKEN_SECRET now = .ok p
            ∧ User.findById s.users p.userId = some u)
      ∧ ((verifyToken env now req s).1.statusCode ≠ 200 →
          (verifyToken env now req s).1.statusCode = 401) := by
  have hcases : (∃ tok p u, req.cookies.accessToken = some tok
        ∧ jwt.verify tok env.ACCESS_TOKEN_SECRET now = .ok p
        ∧ User.findById s.users p.userId = some u)
      ∨ (verifyToken env now req s).1.statusCode = 401 := by
    by_cases hex : ∃ tok p u, req.cookies.accessToken = some tok
        ∧ jwt.verify tok env.ACCESS_TOKEN_SECRET now = .ok p
        ∧ User.findById s.users p.userId = some u
    · exact Or.inl hex
    · exact Or.inr (verifyToken_rejected
        (fun tok p u hc hv hu => hex ⟨tok, p, u, hc, hv, hu⟩)).1
  refine ⟨?_, ?_, ?_⟩
  · intro u
    constructor
    · intro h
      rcases hcases with ⟨tok, p, v, hc, hv, hu⟩ | h401
      · rw [verifyToken_accepted hc hv hu] at h
        simp only [Res.mk.injEq, List.cons.injEq, Prod.mk.injEq, JVal.user.injEq] at h
        have huv : v = u := h.2.2.2.2.1.2
        subst huv
        exact ⟨tok, p, hc, hv, hu⟩
      · rw [h] at h401
        cases h401
    · rintro ⟨tok, p, hc, hv, hu⟩
      rw [verifyToken_accepted hc hv hu]
  · constructor
    · intro h
      rcases hcases with hex | h401
      · exact hex
      · rw [h] at h401
        cases h401
    · rintro ⟨tok, p, u, hc, hv, hu⟩
      rw [verifyToken_accepted hc hv hu]
  · intro h
    rcases hcases with ⟨tok, p, u, hc, hv, hu⟩ | h401
    · rw [verifyToken_accepted hc hv hu] at h
      exact absurd rfl h
    · exact h401

theorem verifyToken_ok_iff_witness :
    (verifyToken demoEnv 6000 (withAccessCookie (aliceAccess 5)) ⟨[alice], []⟩).1
      = { statusCode := 200,
          body := [("message", .str "Token is valid"), ("user", .user alice)] } :=
  ((verifyToken_ok_iff demoEnv 6000 (withAccessCookie (aliceAccess 5)) ⟨[alice], []⟩).1 alice).mpr
    ⟨aliceAccess 5, ⟨some "u0", none, 5, 905⟩, rfl, rfl, by decide⟩


theorem logout_users (env : Env) (now : Nat) (req : Req) (s : State) :
    (logout env now req s).2.users = s.users := by
  unfold logout
  dsimp only
  split
  · rfl
  · split <;> rfl

theorem findById_of_findOne {users : Users} {email : String} {u : User}
    (h : User.findOne users email = some u) :
    ∃ v, User.findById users (some u._id) = some v := by
  have hmem : u ∈ users := List.mem_of_find?_eq_some h
  have hsome : (users.find? (fun v => v._id = u._id)).isSome = true := by
    rw [List.find?_isSome]
    exact ⟨u, hmem, by simp⟩
  unfold User.findById
  exact Option.isSome_iff_exists.mp hsome

/-- Claim C14: `verifyToken` does not depend on the registry: with the same users, any two
registry states give the same answer; and the access token of a login answered 200 is still
answered 200 by `verifyToken` after a logout, at every instant of the 900 seconds of the
token. -/
theorem verifyToken_ignores_registry :
    (∀ (env : Env) (now : Nat) (req : Req) (users : Users) (r1 r2 : Redis),
        (verifyToken env now req ⟨users, r1⟩).1 = (verifyToken env now req ⟨users, r2⟩).1)
      ∧ (∀ (m : UserModel) (env : Env) (s : State) (reqIn reqOut reqV : Req)
          (nowIn nowOut t : Nat),
          (login m env nowIn reqIn s).1.statusCode = 200 →
          reqV.cookies.accessToken = (login m env nowIn reqIn s).1.cookieValue "accessToken" →
          t / 1000 < nowIn / 1000 + 900 →
          (verifyToken env t reqV
              (logout env nowOut reqOut (login m env nowIn reqIn s).2).2).1.statusCode
            = 200) := by
  constructor
  · intro env now req users r1 r2
    unfold verifyToken
    dsimp only
    split
    · rfl
    · split
      · rfl
      · split <;> rfl
  · intro m env s reqIn reqOut reqV nowIn nowOut t h200 hc ht
    obtain ⟨user, a, r, hf, -, hg, e⟩ := login_of_status_200 h200
    obtain ⟨ka, -, hka, -, ha, -⟩ := generateTokens_ok hg
    obtain ⟨v, hv⟩ := findById_of_findOne hf
    rw [e, setCookies_access_value] at hc
    have hver : jwt.verify a env.ACCESS_TOKEN_SECRET t
        = .ok ⟨some user._id, none, nowIn / 1000, nowIn / 1000 + 900⟩ :=
      verify_ok_iff.mpr ⟨ka, hka, ha, ht⟩
    have husers : (logout env nowOut reqOut (login m env nowIn reqIn s).2).2.users = s.users := by
      rw [logout_users, login_users]
    rw [verifyToken_accepted hc hver (by rw [husers]; exact hv)]

theorem verifyToken_ignores_registry_witness :
    (verifyToken demoEnv 904999 (withAccessCookie (aliceAccess 5))
        (logout demoEnv 8000 (withRefreshCookie (aliceRefresh 5))
          (login demoModel demoEnv 5000 aliceLogin ⟨[alice], []⟩).2).2).1.statusCode = 200 :=
  verifyToken_ignores_registry.2 demoModel demoEnv ⟨[alice], []⟩ aliceLogin
    (withRefreshCookie (aliceRefresh 5)) (withAccessCookie (aliceAccess 5)) 5000 8000 904999
    (by decide) (by decide) (by decide)

/-- Claim C15, as the code has it: an access token issued at an instant `now` (by
`generateTokens` or by the refresh handler) carries the clock second `t = now / 1000` as its
issue time; it verifies under the access secret at every instant before `t + 900` seconds
and fails with `jwt expired` at every instant from `t + 900` seconds on; in particular it
verifies one second before and fails one second after. -/
theorem access_token_expiry (env : Env) (now : Nat) (a : Token)
    (h : (∃ userId r, generateTokens env now userId = .ok (a, r))
      ∨ ∃ req s, (refreshToken env now req s).1.cookieValue "accessToken" = some a) :
    (∀ u, u < (now / 1000 + 900) * 1000 →
        ∃ p, jwt.verify a env.ACCESS_TOKEN_SECRET u = .ok p)
      ∧ (∀ u, (now / 1000 + 900) * 1000 ≤ u →
          jwt.verify a env.ACCESS_TOKEN_SECRET u = .error "jwt expired")
      ∧ (∃ p, jwt.verify a env.ACCESS_TOKEN_SECRET ((now / 1000 + 900 - 1) * 1000) = .ok p)
      ∧ jwt.verify a env.ACCESS_TOKEN_SECRET ((now / 1000 + 900 + 1) * 1000)
          = .error "jwt expired" := by
  have hform : ∃ uid ka, envTruthy env.ACCESS_TOKEN_SECRET = some ka
      ∧ a = Token.jwt ⟨uid, none, now / 1000, now / 1000 + 900⟩ ka := by
    rcases h with ⟨userId, r, hg⟩ | ⟨req, s, hc⟩
    · obtain ⟨ka, -, hka, -, ha, -⟩ := generateTokens_ok hg
      exact ⟨_, ka, hka, ha⟩
    · unfold Res.cookieValue at hc
      rw [Option.map_eq_some'] at hc
      obtain ⟨c, hfind, hval⟩ := hc
      obtain ⟨p, ka, hka, hceq⟩ := refreshToken_cookie_mem (List.mem_of_find?_eq_some hfind)
      subst hceq
      exact ⟨_, ka, hka, hval.symm⟩
  obtain ⟨uid, ka, hka, ha⟩ := hform
  have hok : ∀ u, u < (now / 1000 + 900) * 1000 →
      ∃ p, jwt.verify a env.ACCESS_TOKEN_SECRET u = .ok p := by
    intro u hu
    exact ⟨_, verify_ok_iff.mpr ⟨ka, hka, ha, by show u / 1000 < now / 1000 + 900; omega⟩⟩
  have hexp : ∀ u, (now / 1000 + 900) * 1000 ≤ u →
      jwt.verify a env.ACCESS_TOKEN_SECRET u = .error "jwt expired" := by
    intro u hu
    have hge : now / 1000 + 900 ≤ u / 1000 := by omega
    subst ha
    unfold jwt.verify
    simp only [hka, ne_eq, not_true_eq_false, ite_false, ge_iff_le, hge, ite_true]
  exact ⟨hok, hexp, hok _ (by omega), hexp _ (by omega)⟩

/-- Claim C15 fails as stated: the access token issued at the instant 5900 ms carries the
issue second 5 and the expiry second 905, so at the instant 905000 ms, which is 899.1
seconds after the issue and thus before issue plus 900 seconds, it no longer verifies. -/
theorem access_token_expires_within_900_seconds :
    generateTokens demoEnv 5900 "u0" = .ok (aliceAccess 5, aliceRefresh 5)
      ∧ 905000 < 5900 + 900 * 1000
      ∧ jwt.verify (aliceAccess 5) demoEnv.ACCESS_TOKEN_SECRET 905000 = .error "jwt expired" :=
  ⟨rfl, by decide, rfl⟩

theorem access_token_expiry_witness :
    (∃ p, jwt.verify (aliceAccess 5) demoEnv.ACCESS_TOKEN_SECRET 904999 = .ok p)
      ∧ jwt.verify (aliceAccess 5) demoEnv.ACCESS_TOKEN_SECRET 905000 = .error "jwt expired" :=
  have h := access_token_expiry demoEnv 5900 (aliceAccess 5)
    (Or.inl ⟨"u0", aliceRefresh 5, rfl⟩)
  ⟨h.1 904999 (by decide), h.2.1 905000 (by decide)⟩


theorem changePassword_accepted {m : UserModel} {env : Env} {now : Nat} {req : Req} {s : State}
    {p : Payload} {user : User} {users : Users}
    (hv : jwt.verifyField req.body.token env.JWT_SECRET now = .ok p)
    (hu : User.findById s.users p.id = some user)
    (hs : m.save s.users { user with password := req.body.newPassword } = .ok users) :
    changePassword m env now req s
      = ({ statusCode := 200, body := [("message", .str "Đặt lại mật khẩu thành công")] },
         { s with users := users }) := by
  unfold changePassword
  simp only [hv, hu, hs]
  rfl

theorem changePassword_unverified {m : UserModel} {env : Env} {now : Nat} {req : Req}
    {s : State} {e : String}
    (hv : jwt.verifyField req.body.token env.JWT_SECRET now = .error e) :
    changePassword m env now req s
      = ({ statusCode := 400,
           body := [("message", .str "Mã xác nhận không hợp lệ hoặc đã hết hạn")] }, s) := by
  unfold changePassword
  simp only [hv]
  rfl

theorem changePassword_of_status_200 {m : UserModel} {env : Env} {now : Nat} {req : Req}
    {s : State} (h : (changePassword m env now req s).1.statusCode = 200) :
    ∃ p user users, jwt.verifyField req.body.token env.JWT_SECRET now = .ok p
      ∧ User.findById s.users p.id = some user
      ∧ m.save s.users { user with password := req.body.newPassword } = .ok users
      ∧ (changePassword m env now req s).2 = { s with users := users } := by
  unfold changePassword at h ⊢
  dsimp only at h ⊢
  cases hv : jwt.verifyField req.body.token env.JWT_SECRET now with
  | error e =>
    rw [hv] at h
    simp [Res.status, Res.json] at h
  | ok p =>
    rw [hv] at h
    dsimp only at h ⊢
    cases hu : User.findById s.users p.id with
    | none =>
      rw [hu] at h
      simp [Res.status, Res.json] at h
    | some user =>
      rw [hu] at h
      dsimp only at h ⊢
      cases hs : m.save s.users { user with password := req.body.newPassword } with
      | error e =>
        rw [hs] at h
        simp [Res.status, Res.json] at h
      | ok users => exact ⟨p, user, users, rfl, hu, hs, by simp [hu, hs]⟩

theorem verifyField_some {tok : Token} {secret : Option String} {now : Nat} :
    jwt.verifyField (some tok) secret now = jwt.verify tok secret now := rfl

/-- Claim C16 fails as stated: with a schema that validates on save, a reset-password
request whose token verifies under the reset secret and carries the id of the stored sample
user, but whose `newPassword` the store refuses, is answered 400 with the message for an
invalid or expired code, and the user is left as it was. -/
theorem changePassword_refused_save_answers_400 :
    jwt.verifyField (resetRequest (aliceReset 5) "abc").body.token demoEnv.JWT_SECRET 6000
        = .ok ⟨none, some "u0", 5, 905⟩
      ∧ User.findById [alice] (some "u0") = some alice
      ∧ changePassword strictModel demoEnv 6000 (resetRequest (aliceReset 5) "abc")
          ⟨[alice], []⟩
        = ({ statusCode := 400,
             body := [("message", .str "Mã xác nhận không hợp lệ hoặc đã hết hạn")] },
           ⟨[alice], []⟩) :=
  ⟨rfl, by decide, by decide⟩

/-- Claim C16, as the code has it: when the token of a reset-password request verifies under
the reset secret and carries the id of a stored user, `changePassword` hands that user with
the password field set to `newPassword` to `save`, and when the store saves it the answer is
200 and the collection is the saved one; when the token does not verify (missing, no token,
wrong signature or expired) the answer is 400 with the message for an invalid or expired
code and both stores are unchanged. -/
theorem changePassword_contract (m : UserModel) (env : Env) (now : Nat) (req : Req)
    (s : State) :
    (∀ p user users, jwt.verifyField req.body.token env.JWT_SECRET now = .ok p →
        User.findById s.users p.id = some user →
        m.save s.users { user with password := req.body.newPassword } = .ok users →
        changePassword m env now req s
          = ({ statusCode := 200, body := [("message", .str "Đặt lại mật khẩu thành công")] },
             { users := users, redis := s.redis }))
      ∧ (∀ e, jwt.verifyField req.body.token env.JWT_SECRET now = .error e →
          changePassword m env now req s
            = ({ statusCode := 400,
                 body := [("message", .str "Mã xác nhận không hợp lệ hoặc đã hết hạn")] }, s)) :=
  ⟨fun _ _ _ hv hu hs => changePassword_accepted hv hu hs,
   fun _ hv => changePassword_unverified hv⟩

theorem changePassword_contract_witness :
    changePassword demoModel demoEnv 6000 (resetRequest (aliceReset 5) "new1") ⟨[alice], []⟩
        = ({ statusCode := 200, body := [("message", .str "Đặt lại mật khẩu thành công")] },
           { users := [{ alice with password := "h:new1" }], redis := [] })
      ∧ changePassword demoModel demoEnv 905000 (resetRequest (aliceReset 5) "new1")
          ⟨[alice], []⟩
        = ({ statusCode := 400,
             body := [("message", .str "Mã xác nhận không hợp lệ hoặc đã hết hạn")] },
           ⟨[alice], []⟩) :=
  ⟨(changePassword_contract demoModel demoEnv 6000 (resetRequest (aliceReset 5) "new1")
      ⟨[alice], []⟩).1 ⟨none, some "u0", 5, 905⟩ alice _ rfl rfl rfl,
   (changePassword_contract demoModel demoEnv 905000 (resetRequest (aliceReset 5) "new1")
      ⟨[alice], []⟩).2 "jwt expired" rfl⟩

/-- Claim C17 fails as stated: with a schema that validates on save, after a first
`changePassword` answered 200 with a reset token of the sample user, a second
`changePassword` with the same token, 1 second later and with a `newPassword` the store
refuses, is answered 400 and the password of the first reset stays. -/
theorem second_reset_refused_by_store :
    changePassword strictModel demoEnv 6000 (resetRequest (aliceReset 5) "first-password")
        ⟨[alice], []⟩
        = ({ statusCode := 200, body := [("message", .str "Đặt lại mật khẩu thành công")] },
           ⟨[{ alice with password := "h:first-password" }], []⟩)
      ∧ changePassword strictModel demoEnv 7000 (resetRequest (aliceReset 5) "abc")
          ⟨[{ alice with password := "h:first-password" }], []⟩
        = ({ statusCode := 400,
             body := [("message", .str "Mã xác nhận không hợp lệ hoặc đã hết hạn")] },
           ⟨[{ alice with password := "h:first-password" }], []⟩) := by
  decide

/-- Claim C17, as the code has it: a reset token is not used up.  After a `changePassword`
answered 200 with a token, at every instant at which the token is unexpired
`verifyResetToken` still answers that the token is valid and the token check of a second
`changePassword` with the same token passes again; that second request is answered 200 and
saves the second `newPassword` when the store still holds the user and accepts the save. -/
theorem reset_token_replay (m : UserModel) (env : Env) (s : State) (req1 req2 : Req)
    (now1 now2 : Nat) (p : Payload) (k : String)
    (ht1 : req1.body.token = some (Token.jwt p k))
    (ht2 : req2.body.token = some (Token.jwt p k))
    (h1 : (changePassword m env now1 req1 s).1.statusCode = 200)
    (hlive : now2 / 1000 < p.exp) :
    verifyResetToken env now2 req2
        = { statusCode := 200,
            body := [("valid", .bool true), ("message", .str "Token is valid")] }
      ∧ jwt.verifyField req2.body.token env.JWT_SECRET now2 = .ok p
      ∧ (∀ (user2 : User) (users2 : Users),
          User.findById (changePassword m env now1 req1 s).2.users p.id = some user2 →
          m.save (changePassword m env now1 req1 s).2.users
            { user2 with password := req2.body.newPassword } = .ok users2 →
          changePassword m env now2 req2 (changePassword m env now1 req1 s).2
            = ({ statusCode := 200,
                 body := [("message", .str "Đặt lại mật khẩu thành công")] },
               { users := users2, redis := s.redis })) := by
  obtain ⟨p1, -, users1, hv1, -, -, e1⟩ := changePassword_of_status_200 h1
  rw [ht1, verifyField_some] at hv1
  obtain ⟨k1, hk1, htok, -⟩ := verify_ok_iff.mp hv1
  cases htok
  have hv2 : jwt.verifyField req2.body.token env.JWT_SECRET now2 = .ok p := by
    rw [ht2, verifyField_some]
    exact verify_ok_iff.mpr ⟨k, hk1, rfl, hlive⟩
  refine ⟨?_, hv2, ?_⟩
  · unfold verifyResetToken
    simp only [hv2]
    rfl
  · intro user2 users2 hu2 hs2
    rw [changePassword_accepted hv2 hu2 hs2, e1]

theorem reset_token_replay_witness :
    verifyResetToken demoEnv 7000 (resetRequest (aliceReset 5) "new2")
        = { statusCode := 200,
            body := [("valid", .bool true), ("message", .str "Token is valid")] }
      ∧ (changePassword demoModel demoEnv 7000 (resetRequest (aliceReset 5) "new2")
          (changePassword demoModel demoEnv 6000 (resetRequest (aliceReset 5) "new1")
            ⟨[alice], []⟩).2).2.users = [{ alice with password := "h:new2" }] :=
  have h := reset_token_replay demoModel demoEnv ⟨[alice], []⟩
    (resetRequest (aliceReset 5) "new1") (resetRequest (aliceReset 5) "new2") 6000 7000
    ⟨none, some "u0", 5, 905⟩ "reset-key" rfl rfl (by decide) (by decide)
  ⟨h.1,
   congrArg (fun out : Res × State => out.2.users)
    (h.2.2 { alice with password := "h:new1" } [{ alice with password := "h:new2" }]
      (by decide) rfl)⟩

theorem findById_unique {users : Users} {user : User} (hmem : user ∈ users)
    (huniq : ∀ v ∈ users, v._id = user._id → v = user) :
    User.findById users (some user._id) = some user := by
  have hsome : (users.find? (fun v => v._id = user._id)).isSome = true := by
    rw [List.find?_isSome]
    exact ⟨user, hmem, by simp⟩
  obtain ⟨v, hv⟩ := Option.isSome_iff_exists.mp hsome
  have hvm : v ∈ users := List.mem_of_find?_eq_some hv
  have hvid : v._id = user._id := by simpa using List.find?_some hv
  unfold User.findById
  dsimp only
  rw [hv, huniq v hvm hvid]

/-- Claim C18: `forgotPassword` answers 404 and sends nothing when no user has the email.
When a user has it (and the reset secret is set) the answer is 200 and one email goes to the
submitted address; its token, presented to `changePassword` within the 900 seconds of the
token, verifies to a payload whose `id` is the id of that user, so `changePassword` looks up
a document with exactly that id, and, the id being that of this user alone, saves this user
with the new password. -/
theorem forgot_password_round_trip (m : UserModel) (env : Env) (now : Nat) (req : Req)
    (s : State) :
    (User.findOne s.users req.body.email = none →
        forgotPassword env now req s
          = ({ statusCode := 404, body := [("message", .str "Email không tồn tại")] }, []))
      ∧ (∀ user kj, User.findOne s.users req.body.email = some user →
          envTruthy env.JWT_SECRET = some kj →
          ∃ tok, forgotPassword env now req s
              = ({ statusCode := 200,
                   body := [("message", .str "Mã xác nhận đã được gửi đến email")] },
                 [{ toAddress := req.body.email, subject := "Đặt lại mật khẩu",
                    linkBase := "http://localhost:3000/reset-password/", resetToken := tok }])
            ∧ ∀ (t : Nat) (reqC : Req), reqC.body.token = some tok →
                t / 1000 < now / 1000 + 900 →
                (∃ p, jwt.verifyField reqC.body.token env.JWT_SECRET t = .ok p
                    ∧ p.id = some user._id
                    ∧ ∃ v, User.findById s.users p.id = some v ∧ v._id = user._id)
                  ∧ ((∀ v ∈ s.users, v._id = user._id → v = user) →
                      ∀ users, m.save s.users { user with password := reqC.body.newPassword }
                          = .ok users →
                        changePassword m env t reqC s
                          = ({ statusCode := 200,
                               body := [("message", .str "Đặt lại mật khẩu thành công")] },
                             { users := users, redis := s.redis }))) := by
  constructor
  · intro h
    unfold forgotPassword
    rw [h]
    rfl
  · intro user kj hf hk
    have hsign : jwt.sign none (some user._id) env.JWT_SECRET "15m" now
        = .ok (Token.jwt ⟨none, some user._id, now / 1000, now / 1000 + 900⟩ kj) := by
      unfold jwt.sign
      rw [hk, timespan_fifteen_minutes]
    refine ⟨Token.jwt ⟨none, some user._id, now / 1000, now / 1000 + 900⟩ kj, ?_, ?_⟩
    · unfold forgotPassword
      rw [hf]
      simp only [hsign]
      rfl
    · intro t reqC hc ht
      have hv : jwt.verifyField reqC.body.token env.JWT_SECRET t
          = .ok ⟨none, some user._id, now / 1000, now / 1000 + 900⟩ := by
        rw [hc, verifyField_some]
        exact verify_ok_iff.mpr ⟨kj, hk, rfl, ht⟩
      have hmem : user ∈ s.users := List.mem_of_find?_eq_some hf
      constructor
      · obtain ⟨v, hfind⟩ := findById_of_findOne hf
        refine ⟨_, hv, rfl, v, hfind, ?_⟩
        unfold User.findById at hfind
        simpa using List.find?_some hfind
      · intro huniq users hs
        exact changePassword_accepted hv (findById_unique hmem huniq) hs

theorem forgot_password_round_trip_witness :
    forgotPassword demoEnv 5000 { body := { email := "nobody@x.com" } } ⟨[alice], []⟩
        = ({ statusCode := 404, body := [("message", .str "Email không tồn tại")] }, [])
      ∧ ∃ tok, forgotPassword demoEnv 5000 { body := { email := "a@x.com" } } ⟨[alice], []⟩
          = ({ statusCode := 200,
               body := [("message", .str "Mã xác nhận đã được gửi đến email")] },
             [{ toAddress := "a@x.com", subject := "Đặt lại mật khẩu",
                linkBase := "http://localhost:3000/reset-password/", resetToken := tok }])
        ∧ changePassword demoModel demoEnv 6000 (resetRequest tok "new1") ⟨[alice], []⟩
          = ({ statusCode := 200, body := [("message", .str "Đặt lại mật khẩu thành công")] },
             { users := [{ alice with password := "h:new1" }], redis := [] }) :=
  ⟨(forgot_password_round_trip demoModel demoEnv 5000 { body := { email := "nobody@x.com" } }
      ⟨[alice], []⟩).1 (by decide),
   match (forgot_password_round_trip demoModel demoEnv 5000 { body := { email := "a@x.com" } }
      ⟨[alice], []⟩).2 alice "reset-key" (by decide) (by decide) with
   | ⟨tok, hsent, hround⟩ =>
     ⟨tok, hsent, (hround 6000 (resetRequest tok "new1") rfl (by decide)).2
       (by decide) _ rfl⟩⟩


theorem appDispatch_mem {method : Method} {path : List String} {route : Route}
    (h : appDispatch method path = some route) : ∃ mount ∈ app, route ∈ mount.2 := by
  unfold appDispatch at h
  obtain ⟨mount, hmem, hf⟩ := List.exists_of_findSome?_eq_some h
  refine ⟨mount, hmem, ?_⟩
  cases hd : dropMount mount.1 path with
  | none =>
    rw [hd] at hf
    cases hf
  | some rest =>
    rw [hd] at hf
    exact List.mem_of_find?_eq_some hf

theorem chains_checked :
    ∀ a b c : Bool, ∀ mount ∈ app, ∀ route ∈ mount.2,
      route.chain.any Step.isRoleGate = true →
      (runChain ⟨a, b, c⟩ route.chain).isHandled = true → a = true := by
  decide

/-- Claim C19: in every router the application mounts (products, users, orders and
analytics among them) each registered chain is a run of gates followed by one controller,
and each `adminRoute` or `sellerRoute` has `protectRoute` before it in the same chain; so
whenever the route the application runs for a request has a role gate and its controller
runs, `protectRoute` has let the request through. -/
theorem role_gates_after_auth :
    (∀ router ∈ [productRouter, usersRouter, orderRouter, analyticsRouter], ∀ route ∈ router,
        gatesThenHandler route.chain = true ∧ authBeforeRole false route.chain = true)
      ∧ (∀ mount ∈ app, ∀ route ∈ mount.2,
          gatesThenHandler route.chain = true ∧ authBeforeRole false route.chain = true)
      ∧ (∀ (g : Gates) (method : Method) (path : List String) (route : Route),
          appDispatch method path = some route →
          route.chain.any Step.isRoleGate = true →
          (runChain g route.chain).isHandled = true → g.protectRoute = true) := by
  refine ⟨by decide, by decide, ?_⟩
  intro g method path route hd hrole hrun
  obtain ⟨mount, hm, hr⟩ := appDispatch_mem hd
  obtain ⟨a, b, c⟩ := g
  exact chains_checked a b c mount hm route hr hrole hrun

theorem role_gates_after_auth_witness :
    appDispatch .GET ["api", "order", "pending"]
        = some ⟨.GET, [.lit "pending"],
            [.protectRoute, .sellerRoute, .handler "getPendingOrders"]⟩
      ∧ runChain ⟨true, false, true⟩ [.protectRoute, .sellerRoute, .handler "getPendingOrders"]
          = .handled "getPendingOrders"
      ∧ (⟨true, false, true⟩ : Gates).protectRoute = true :=
  ⟨by decide, by decide,
   role_gates_after_auth.2.2 ⟨true, false, true⟩ .GET ["api", "order", "pending"]
    ⟨.GET, [.lit "pending"], [.protectRoute, .sellerRoute, .handler "getPendingOrders"]⟩
    (by decide) (by decide) (by decide)⟩

/-- Claim C20 at the failing input: a PUT request to `/api/users/profile` fits the route
`PUT /:id`, registered before `PUT /profile`, so it runs `protectRoute`, then `adminRoute`,
then `updateUserByAdmin`; a user whom `adminRoute` turns away is answered by that gate, and
whatever the gates decide `updateUserProfile` does not run. -/
theorem put_profile_runs_admin_route :
    appDispatch .PUT ["api", "users", "profile"]
        = some ⟨.PUT, [.param "id"], [.protectRoute, .adminRoute, .handler "updateUserByAdmin"]⟩
      ∧ (appDispatch .PUT ["api", "users", "profile"]).map (fun route =>
          runChain ⟨true, false, false⟩ route.chain) = some (.rejected .adminRoute)
      ∧ (appDispatch .PUT ["api", "users", "profile"]).map (fun route =>
          runChain ⟨true, true, false⟩ route.chain) = some (.handled "updateUserByAdmin")
      ∧ ∀ a b c : Bool, (appDispatch .PUT ["api", "users", "profile"]).map (fun route =>
          runChain ⟨a, b, c⟩ route.chain) ≠ some (.handled "updateUserProfile") := by
  decide


theorem lookup_filter_other (r : Redis) {key other : String} (h : other ≠ key) :
    List.lookup other (r.filter (fun e => e.1 ≠ key)) = List.lookup other r := by
  induction r with
  | nil => rfl
  | cons e r ih =>
    obtain ⟨a, b⟩ := e
    by_cases ha : a = key
    · rw [List.filter_cons_of_neg (by simpa using ha)]
      have hk : (other == a) = false := by
        rw [beq_eq_false_iff_ne, ha]
        exact h
      rw [List.lookup_cons, hk]
      exact ih
    · rw [List.filter_cons_of_pos (by simpa using ha)]
      rw [List.lookup_cons, List.lookup_cons, ih]

theorem get_set_other (r : Redis) {key other : String} (h : other ≠ key) (value : Token)
    (seconds now t : Nat) :
    Redis.get (Redis.set r key value seconds now) other t = Redis.get r other t := by
  have hk : (other == key) = false := by
    rw [beq_eq_false_iff_ne]
    exact h
  unfold Redis.get Redis.set
  rw [List.lookup_cons, hk, lookup_filter_other r h]

theorem get_del_other (r : Redis) {key other : String} (h : other ≠ key) (t : Nat) :
    Redis.get (Redis.del r key) other t = Redis.get r other t := by
  unfold Redis.get Redis.del
  rw [lookup_filter_other r h]

theorem refreshKey_injective {a b : String} (h : refreshKey (some a) = refreshKey (some b)) :
    a = b := by
  unfold refreshKey interpolate at h
  have hd := congrArg String.data h
  simp only [String.data_append] at hd
  exact String.ext (List.append_cancel_left hd)

/-- Claim C21 fails as stated: after `storeRefreshToken` for the user `u0` the registry has
no entry under the key `refresh:u0`; the entry is under `refresh_token:u0`. -/
theorem registry_key_is_not_refresh_colon :
    storeRefreshToken [] 5000 "u0" (aliceRefresh 5)
        = [("refresh_token:u0", ⟨aliceRefresh 5, 604805000⟩)]
      ∧ (storeRefreshToken [] 5000 "u0" (aliceRefresh 5)).get "refresh:u0" 5000 = none
      ∧ (storeRefreshToken [] 5000 "u0" (aliceRefresh 5)).get "refresh_token:u0" 5000
          = some (aliceRefresh 5) := by
  decide

/-- Claim C21, as the code has it: the registry key of a user is `refresh_token:` followed
by the user id.  `storeRefreshToken` writes that key, a logout whose token verifies deletes
that key for the user id of the token, and the answer of the refresh handler to a token that
verifies depends on the registry only through the value under that key. -/
theorem registry_key_is_refresh_token_colon :
    (∀ (redis : Redis) (now : Nat) (userId : String) (tok : Token),
        storeRefreshToken redis now userId tok
          = redis.set ("refresh_token:" ++ userId) tok (7 * 24 * 60 * 60) now)
      ∧ (∀ (env : Env) (now : Nat) (req : Req) (s : State) (tok : Token) (p : Payload),
          req.cookies.refreshToken = some tok →
          jwt.verify tok env.REFRESH_TOKEN_SECRET now = .ok p →
          (logout env now req s).2.redis
            = s.redis.del ("refresh_token:" ++ interpolate p.userId))
      ∧ (∀ (env : Env) (now : Nat) (req : Req) (users : Users) (r1 r2 : Redis) (tok : Token)
          (p : Payload),
          req.cookies.refreshToken = some tok →
          jwt.verify tok env.REFRESH_TOKEN_SECRET now = .ok p →
          r1.get ("refresh_token:" ++ interpolate p.userId) now
            = r2.get ("refresh_token:" ++ interpolate p.userId) now →
          (refreshToken env now req ⟨users, r1⟩).1 = (refreshToken env now req ⟨users, r2⟩).1) := by
  refine ⟨fun _ _ _ _ => rfl, ?_, ?_⟩
  · intro env now req s tok p hc hv
    rw [logout_verified hc hv]
    rfl
  · intro env now req users r1 r2 tok p hc hv hget
    rw [refreshToken_verified hc hv, refreshToken_verified hc hv]
    simp only [refreshKey]
    by_cases h2 : r2.get ("refresh_token:" ++ interpolate p.userId) now = some tok
    · rw [if_pos (hget.trans h2), if_pos h2]
      cases jwt.sign p.userId none env.ACCESS_TOKEN_SECRET "15m" now <;> rfl
    · rw [if_neg (fun h1 => h2 (hget.symm.trans h1)), if_neg h2]

theorem registry_key_is_refresh_token_colon_witness :
    (logout demoEnv 6000 (withRefreshCookie (aliceRefresh 5))
        ⟨[alice], [("refresh_token:u0", ⟨aliceRefresh 5, 604805000⟩),
                   ("refresh:u0", ⟨aliceRefresh 5, 604805000⟩)]⟩).2.redis
      = Redis.del [("refresh_token:u0", ⟨aliceRefresh 5, 604805000⟩),
                   ("refresh:u0", ⟨aliceRefresh 5, 604805000⟩)]
          ("refresh_token:" ++ interpolate (some "u0")) :=
  registry_key_is_refresh_token_colon.2.1 demoEnv 6000 (withRefreshCookie (aliceRefresh 5))
    ⟨[alice], [("refresh_token:u0", ⟨aliceRefresh 5, 604805000⟩),
               ("refresh:u0", ⟨aliceRefresh 5, 604805000⟩)]⟩
    (aliceRefresh 5) ⟨some "u0", none, 5, 604805⟩ rfl rfl


theorem signup_redis (m : UserModel) (env : Env) (now : Nat) (req : Req) (s : State) :
    (signup m env now req s).2.redis = s.redis
      ∨ ∃ user users r,
          m.create s.users req.body.name req.body.email req.body.password = .ok (user, users)
          ∧ (signup m env now req s).2.redis = storeRefreshToken s.redis now user._id r := by
  unfold signup
  dsimp only
  cases User.findOne s.users req.body.email with
  | some u => exact Or.inl rfl
  | none =>
    dsimp only
    cases hc : m.create s.users req.body.name req.body.email req.body.password with
    | error e => exact Or.inl rfl
    | ok pair =>
      obtain ⟨user, users⟩ := pair
      dsimp only
      cases hg : generateTokens env now user._id with
      | error e => exact Or.inl rfl
      | ok toks =>
        obtain ⟨a, r⟩ := toks
        exact Or.inr ⟨user, users, r, rfl, rfl⟩

theorem login_redis (m : UserModel) (env : Env) (now : Nat) (req : Req) (s : State) :
    (login m env now req s).2.redis = s.redis
      ∨ ∃ user r, User.findOne s.users req.body.email = some user
          ∧ (login m env now req s).2.redis = storeRefreshToken s.redis now user._id r := by
  unfold login
  dsimp only
  cases User.findOne s.users req.body.email with
  | none => exact Or.inl rfl
  | some user =>
    dsimp only
    cases m.comparePassword user req.body.password with
    | false => exact Or.inl rfl
    | true =>
      cases hg : generateTokens env now user._id with
      | error e => exact Or.inl (by simp)
      | ok toks =>
        obtain ⟨a, r⟩ := toks
        exact Or.inr ⟨user, r, rfl, by simp⟩

theorem logout_redis (env : Env) (now : Nat) (req : Req) (s : State) :
    (logout env now req s).2.redis = s.redis
      ∨ ∃ tok p, req.cookies.refreshToken = some tok
          ∧ jwt.verify tok env.REFRESH_TOKEN_SECRET now = .ok p
          ∧ (logout env now req s).2.redis = s.redis.del (refreshKey p.userId) := by
  cases hc : req.cookies.refreshToken with
  | none =>
    left
    unfold logout
    rw [hc]
    rfl
  | some tok =>
    cases hv : jwt.verify tok env.REFRESH_TOKEN_SECRET now with
    | ok p => exact Or.inr ⟨tok, p, rfl, hv, by rw [logout_verified hc hv]⟩
    | error e =>
      left
      unfold logout
      rw [hc]
      unfold cookieTruthy
      by_cases he : tok = Token.raw ""
      · simp [he]
      · simp [he, hv]

theorem refreshKey_ne {a b : String} (h : a ≠ b) : refreshKey (some a) ≠ refreshKey (some b) :=
  fun hk => h (refreshKey_injective hk)

/-- Claim C22: the registry key is an injective function of the user id, and a signup, a
login or a logout that acts for one user, like every refresh request, leaves the registry
entry of every user with another id as it was. -/
theorem other_users_entries_untouched (m : UserModel) (env : Env) (now : Nat) (req : Req)
    (s : State) (other : String) (t : Nat) :
    (∀ a b : String, refreshKey (some a) = refreshKey (some b) → a = b)
      ∧ ((∀ user users,
            m.create s.users req.body.name req.body.email req.body.password = .ok (user, users) →
            user._id ≠ other) →
          (signup m env now req s).2.redis.get (refreshKey (some other)) t
            = s.redis.get (refreshKey (some other)) t)
      ∧ ((∀ user, User.findOne s.users req.body.email = some user → user._id ≠ other) →
          (login m env now req s).2.redis.get (refreshKey (some other)) t
            = s.redis.get (refreshKey (some other)) t)
      ∧ ((∀ tok p, req.cookies.refreshToken = some tok →
            jwt.verify tok env.REFRESH_TOKEN_SECRET now = .ok p →
            ∃ userId, p.userId = some userId ∧ userId ≠ other) →
          (logout env now req s).2.redis.get (refreshKey (some other)) t
            = s.redis.get (refreshKey (some other)) t)
      ∧ (refreshToken env now req s).2.redis.get (refreshKey (some other)) t
          = s.redis.get (refreshKey (some other)) t := by
  refine ⟨fun a b h => refreshKey_injective h, ?_, ?_, ?_, ?_⟩
  · intro h
    rcases signup_redis m env now req s with e | ⟨user, users, r, hc, e⟩
    · rw [e]
    · rw [e]
      exact get_set_other s.redis (refreshKey_ne (h user users hc).symm) r _ now t
  · intro h
    rcases login_redis m env now req s with e | ⟨user, r, hf, e⟩
    · rw [e]
    · rw [e]
      exact get_set_other s.redis (refreshKey_ne (h user hf).symm) r _ now t
  · intro h
    rcases logout_redis env now req s with e | ⟨tok, p, hc, hv, e⟩
    · rw [e]
    · obtain ⟨userId, hp, hne⟩ := h tok p hc hv
      rw [e, hp]
      exact get_del_other s.redis (refreshKey_ne hne.symm) t
  · rw [refreshToken_state]

theorem other_users_entries_untouched_witness :
    (logout demoEnv 6000 (withRefreshCookie (aliceRefresh 5))
        ⟨[alice], [("refresh_token:u0", ⟨aliceRefresh 5, 604805000⟩),
                   ("refresh_token:u1", ⟨aliceRefresh 7, 604807000⟩)]⟩).2.redis.get
          (refreshKey (some "u1")) 6000
      = Redis.get [("refresh_token:u0", ⟨aliceRefresh 5, 604805000⟩),
                   ("refresh_token:u1", ⟨aliceRefresh 7, 604807000⟩)]
          (refreshKey (some "u1")) 6000 :=
  (other_users_entries_untouched demoModel demoEnv 6000 (withRefreshCookie (aliceRefresh 5))
    ⟨[alice], [("refresh_token:u0", ⟨aliceRefresh 5, 604805000⟩),
               ("refresh_token:u1", ⟨aliceRefresh 7, 604807000⟩)]⟩ "u1" 6000).2.2.2.1
    (fun tok p hc hv => by
      cases hc
      cases hv
      exact ⟨"u0", rfl, by decide⟩)

/-- Claim C23: the admin gate answers 403 to a request whose attached user is an ordinary
user (and to one whose user is a seller) and lets a request whose attached user is an
administrator through. -/
theorem adminRoute_verdicts :
    adminRoute Role.ordinaryUser = Verdict.respond 403
      ∧ adminRoute Role.administrator = Verdict.next
      ∧ adminRoute Role.seller = Verdict.respond 403
      ∧ ∀ role, adminRoute role = Verdict.next ↔ role = Role.administrator := by
  refine ⟨by decide, by decide, by decide, ?_⟩
  intro role
  cases role <;> decide

/-- Claim C24: logout does not compare the presented token with the registry.  A logout
carrying any refresh token that verifies is answered 200 and removes the registry entry of
the user id of that token, whatever the entry holds; a refresh request presenting any token
of that user id that verifies, such as the one of a newer session, then gets 401
`Invalid refresh token`. -/
theorem logout_with_any_valid_token (env : Env) (s : State) (reqOut reqIn : Req)
    (now1 now2 : Nat) (tok tok2 : Token) (p p2 : Payload)
    (hc : reqOut.cookies.refreshToken = some tok)
    (hv : jwt.verify tok env.REFRESH_TOKEN_SECRET now1 = .ok p)
    (hc2 : reqIn.cookies.refreshToken = some tok2)
    (hv2 : jwt.verify tok2 env.REFRESH_TOKEN_SECRET now2 = .ok p2)
    (hsame : p2.userId = p.userId) :
    (logout env now1 reqOut s).1.statusCode = 200
      ∧ (∀ t, (logout env now1 reqOut s).2.redis.get (refreshKey p.userId) t = none)
      ∧ refreshToken env now2 reqIn (logout env now1 reqOut s).2
          = ({ statusCode := 401, body := [("message", .str "Invalid refresh token")] },
             (logout env now1 reqOut s).2) := by
  have hget : ∀ t, (logout env now1 reqOut s).2.redis.get (refreshKey p.userId) t = none := by
    intro t
    rw [logout_verified hc hv]
    exact get_del_same s.redis _ t
  refine ⟨by rw [logout_verified hc hv], hget, ?_⟩
  rw [refreshToken_verified hc2 hv2, hsame, hget now2]
  rfl

theorem logout_with_any_valid_token_witness :
    (login demoModel demoEnv 6000 aliceLogin
        (login demoModel demoEnv 5000 aliceLogin ⟨[alice], []⟩).2).2.redis.get
          (refreshKey (some "u0")) 7000 = some (aliceRefresh 6)
      ∧ (refreshToken demoEnv 8000 (withRefreshCookie (aliceRefresh 6))
          (logout demoEnv 7000 (withRefreshCookie (aliceRefresh 5))
            (login demoModel demoEnv 6000 aliceLogin
              (login demoModel demoEnv 5000 aliceLogin ⟨[alice], []⟩).2).2).2).1
        = { statusCode := 401, body := [("message", .str "Invalid refresh token")] } :=
  ⟨by decide,
   congrArg Prod.fst
    (logout_with_any_valid_token demoEnv
      (login demoModel demoEnv 6000 aliceLogin
        (login demoModel demoEnv 5000 aliceLogin ⟨[alice], []⟩).2).2
      (withRefreshCookie (aliceRefresh 5)) (withRefreshCookie (aliceRefresh 6)) 7000 8000
      (aliceRefresh 5) (aliceRefresh 6) ⟨some "u0", none, 5, 604805⟩
      ⟨some "u0", none, 6, 604806⟩ rfl rfl rfl rfl rfl).2.2⟩


theorem changePassword_redis (m : UserModel) (env : Env) (now : Nat) (req : Req) (s : State) :
    (changePassword m env now req s).2.redis = s.redis := by
  unfold changePassword
  dsimp only
  split
  · rfl
  · split
    · rfl
    · split <;> rfl

theorem refreshToken_users_irrelevant (env : Env) (now : Nat) (req : Req) (users1 users2 : Users)
    (redis : Redis) :
    (refreshToken env now req ⟨users1, redis⟩).1 = (refreshToken env now req ⟨users2, redis⟩).1 := by
  unfold refreshToken
  dsimp only
  split
  · rfl
  · split
    · rfl
    · split
      · rfl
      · split <;> rfl

/-- Claim C25: `changePassword` leaves the registry as it was, for every request and state,
and the refresh handler gives the same answer after the reset as it would have given
without it; so a refresh token that is accepted is still accepted after a password reset of
its user. -/
theorem changePassword_keeps_sessions (m : UserModel) (env : Env) (now : Nat) (req : Req)
    (s : State) :
    (changePassword m env now req s).2.redis = s.redis
      ∧ (∀ (t : Nat) (reqR : Req),
          (refreshToken env t reqR (changePassword m env now req s).2).1
            = (refreshToken env t reqR s).1)
      ∧ (∀ (t : Nat) (reqR : Req),
          (changePassword m env now req s).1.statusCode = 200 →
          (refreshToken env t reqR s).1.statusCode = 200 →
          (refreshToken env t reqR (changePassword m env now req s).2).1.statusCode = 200) := by
  have hframe : ∀ (t : Nat) (reqR : Req),
      (refreshToken env t reqR (changePassword m env now req s).2).1
        = (refreshToken env t reqR s).1 := by
    intro t reqR
    have hr := changePassword_redis m env now req s
    calc (refreshToken env t reqR (changePassword m env now req s).2).1
        = (refreshToken env t reqR
            ⟨(changePassword m env now req s).2.users,
             (changePassword m env now req s).2.redis⟩).1 := rfl
      _ = (refreshToken env t reqR ⟨(changePassword m env now req s).2.users, s.redis⟩).1 := by
          rw [hr]
      _ = (refreshToken env t reqR ⟨s.users, s.redis⟩).1 :=
          refreshToken_users_irrelevant env t reqR _ _ _
  refine ⟨changePassword_redis m env now req s, hframe, ?_⟩
  intro t reqR _ h
  rw [hframe]
  exact h

theorem changePassword_keeps_sessions_witness :
    (changePassword demoModel demoEnv 6000 (resetRequest (aliceReset 5) "new1")
        ⟨[alice], [("refresh_token:u0", ⟨aliceRefresh 5, 604805000⟩)]⟩).2.users
        = [{ alice with password := "h:new1" }]
      ∧ (refreshToken demoEnv 7000 (withRefreshCookie (aliceRefresh 5))
          (changePassword demoModel demoEnv 6000 (resetRequest (aliceReset 5) "new1")
            ⟨[alice], [("refresh_token:u0", ⟨aliceRefresh 5, 604805000⟩)]⟩).2).1.statusCode
        = 200 :=
  ⟨by decide,
   (changePassword_keeps_sessions demoModel demoEnv 6000 (resetRequest (aliceReset 5) "new1")
    ⟨[alice], [("refresh_token:u0", ⟨aliceRefresh 5, 604805000⟩)]⟩).2.2 7000
    (withRefreshCookie (aliceRefresh 5)) (by decide) (by decide)⟩

theorem verifyToken_of_status_200 {env : Env} {now : Nat} {req : Req} {s : State}
    (h : (verifyToken env now req s).1.statusCode = 200) :
    ∃ tok p user, req.cookies.accessToken = some tok
      ∧ jwt.verify tok env.ACCESS_TOKEN_SECRET now = .ok p
      ∧ User.findById s.users p.userId = some user := by
  by_contra hno
  have h401 := (@verifyToken_rejected env now req s
    (fun tok p u hc hv hu => hno ⟨tok, p, u, hc, hv, hu⟩)).1
  rw [h] at h401
  cases h401

/-- Claim C26: the body of a signup answered 201 and of a login answered 200 has exactly the
four fields `_id`, `name`, `email` and `role` of the user, in that order, and no `password`
field; the body of a `verifyToken` answered 200 has the field `message` and, under `user`,
the whole document that `User.findById` returned, the `password` field included. -/
theorem response_user_fields (m : UserModel) (env : Env) (now : Nat) (req : Req) (s : State) :
    ((signup m env now req s).1.statusCode = 201 →
      ∃ user users,
        m.create s.users req.body.name req.body.email req.body.password = .ok (user, users)
        ∧ (signup m env now req s).1.body
            = [("_id", .str user._id), ("name", .str user.name),
               ("email", .str user.email), ("role", .str user.role)]
        ∧ Json.keys (signup m env now req s).1.body = ["_id", "name", "email", "role"]
        ∧ "password" ∉ Json.keys (signup m env now req s).1.body)
    ∧ ((login m env now req s).1.statusCode = 200 →
      ∃ user, User.findOne s.users req.body.email = some user
        ∧ (login m env now req s).1.body
            = [("_id", .str user._id), ("name", .str user.name),
               ("email", .str user.email), ("role", .str user.role)]
        ∧ Json.keys (login m env now req s).1.body = ["_id", "name", "email", "role"]
        ∧ "password" ∉ Json.keys (login m env now req s).1.body)
    ∧ ((verifyToken env now req s).1.statusCode = 200 →
      ∃ tok p user, req.cookies.accessToken = some tok
        ∧ jwt.verify tok env.ACCESS_TOKEN_SECRET now = .ok p
        ∧ User.findById s.users p.userId = some user
        ∧ (verifyToken env now req s).1.body
            = [("message", .str "Token is valid"),
               ("user", .user ⟨user._id, user.name, user.email, user.password, user.role⟩)]) := by
  refine ⟨?_, ?_, ?_⟩
  · intro h
    obtain ⟨user, users, a, r, -, hc, -, e⟩ := signup_of_status_201 h
    rw [e]
    exact ⟨user, users, hc, rfl, rfl, by simp [Json.keys, Res.json]⟩
  · intro h
    obtain ⟨user, a, r, hf, -, -, e⟩ := login_of_status_200 h
    rw [e]
    exact ⟨user, hf, rfl, rfl, by simp [Json.keys, Res.json]⟩
  · intro h
    obtain ⟨tok, p, user, hc, hv, hu⟩ := verifyToken_of_status_200 h
    rw [verifyToken_accepted hc hv hu]
    exact ⟨tok, p, user, hc, hv, hu, rfl⟩

theorem response_user_fields_witness :
    (signup demoModel demoEnv 5000 aliceSignup ⟨[], []⟩).1.body
        = [("_id", .str "u0"), ("name", .str "Alice"),
           ("email", .str "a@x.com"), ("role", .str "customer")]
      ∧ (login demoModel demoEnv 5000 aliceLogin ⟨[alice], []⟩).1.body
        = [("_id", .str "u0"), ("name", .str "Alice"),
           ("email", .str "a@x.com"), ("role", .str "customer")]
      ∧ (verifyToken demoEnv 6000 (withAccessCookie (aliceAccess 5)) ⟨[alice], []⟩).1.body
        = [("message", .str "Token is valid"),
           ("user", .user ⟨"u0", "Alice", "a@x.com", "h:p1", "customer"⟩)] :=
  ⟨match (response_user_fields demoModel demoEnv 5000 aliceSignup ⟨[], []⟩).1
      (by decide) with
   | ⟨user, users, hc, hb, _⟩ => by
     cases hc
     exact hb,
   match (response_user_fields demoModel demoEnv 5000 aliceLogin ⟨[alice], []⟩).2.1
      (by decide) with
   | ⟨user, hf, hb, _⟩ => by
     cases hf
     exact hb,
   match (response_user_fields demoModel demoEnv 6000 (withAccessCookie (aliceAccess 5))
      ⟨[alice], []⟩).2.2 (by decide) with
   | ⟨tok, p, user, hc, hv, hu, hb⟩ => by
     cases hc
     cases hv
     cases hu
     exact hb⟩

end AuthController
